import Mathlib

/-!
Shallow embedding of the gemini-daemon translation core:
the Request Adapter (`src/daemon/src/adapters/openai-to-gemini.ts`),
the Response Adapter (`src/daemon/src/adapters/gemini-to-openai.ts`),
the Streaming Transformer (`sse-transformer.ts`),
the Upstream Client retry/stream logic (`src/daemon/src/services/gemini-client.ts`)
and the `/v1/chat/completions` route (`src/daemon/src/routes/chat-completions.ts`).

JavaScript runtime values are modelled as follows: optional / possibly
`undefined` fields become `Option`; JSON values become the inductive `Json`
(numbers as `Int`: float payloads are never inspected by the code under
verification); `JSON.parse` / `JSON.stringify` / `uuidv4()` / `Date.now()`
are effectful or platform functions and are passed in as parameters, so the
theorems hold for every choice of them.
-/

namespace GeminiDaemon

/-- Model of a JavaScript JSON value (`unknown` that came out of `JSON.parse`). -/
inductive Json where
  | str : String → Json
  | num : Int → Json
  | bool : Bool → Json
  | null : Json
  | arr : List Json → Json
  | obj : List (String × Json) → Json


/-- `functionCall` payload of a Gemini part (`gemini-client.ts`, `GeminiPart`).
`args` is typed as required in TS but the adapters guard it with `?? {}`,
so it is modelled as optional. -/
structure FunctionCallData where
  name : String
  args : Option Json := none


/-- `functionResponse` payload of a Gemini part. -/
structure FunctionResponseData where
  name : String
  response : Json


/-- `GeminiPart` from `gemini-client.ts`: exactly the three optional fields. -/
structure GeminiPart where
  text : Option String := none
  functionCall : Option FunctionCallData := none
  functionResponse : Option FunctionResponseData := none


/-- `GeminiCandidate.content` from `gemini-client.ts`. -/
structure CandidateContent where
  parts : Option (List GeminiPart) := none
  role : Option String := none


/-- `GeminiCandidate` from `gemini-client.ts`. -/
structure GeminiCandidate where
  content : Option CandidateContent := none
  finishReason : Option String := none


/-- `usageMetadata` of a Gemini response. -/
structure UsageMetadata where
  promptTokenCount : Option Nat := none
  candidatesTokenCount : Option Nat := none
  totalTokenCount : Option Nat := none


/-- `GeminiResponse` from `gemini-client.ts`. -/
structure GeminiResponse where
  candidates : Option (List GeminiCandidate) := none
  usageMetadata : Option UsageMetadata := none


/-- `CloudCodeResponse`: the backend wraps every response in `{response, traceId?}`. -/
structure CloudCodeResponse where
  response : GeminiResponse
  traceId : Option String := none


/-- `response.candidates?.[0]`: both converters read only the first candidate. -/
def firstCandidate (r : GeminiResponse) : Option GeminiCandidate :=
  r.candidates.bind List.head?

/-- `candidate?.content?.parts ?? []` on the first candidate. -/
def firstCandidateParts (r : GeminiResponse) : List GeminiPart :=
  (((firstCandidate r).bind (fun c => c.content)).bind (fun c => c.parts)).getD []

/-- `candidate?.finishReason` on the first candidate. -/
def firstCandidateFinish (r : GeminiResponse) : Option String :=
  (firstCandidate r).bind (fun c => c.finishReason)


/-! ## Response adapter types (`gemini-to-openai.ts`) -/

namespace GeminiToOpenAI

/-- Nested `function` object of an `OpenAIResponseToolCall`. -/
structure ToolCallFunction where
  name : String
  arguments : String

/-- `OpenAIResponseToolCall` from `gemini-to-openai.ts`. -/
structure OpenAIResponseToolCall where
  id : String
  type : String
  function : ToolCallFunction

/-- `OpenAIResponseMessage` from `gemini-to-openai.ts` (role is always "assistant"). -/
structure OpenAIResponseMessage where
  role : String
  content : Option String
  tool_calls : Option (List OpenAIResponseToolCall) := none

/-- `OpenAIChatChoice` from `gemini-to-openai.ts`. -/
structure OpenAIChatChoice where
  index : Nat
  message : OpenAIResponseMessage
  finish_reason : Option String

/-- `OpenAIUsage` from `gemini-to-openai.ts`. -/
structure OpenAIUsage where
  prompt_tokens : Nat
  completion_tokens : Nat
  total_tokens : Nat

/-- `OpenAIChatCompletion` from `gemini-to-openai.ts`. -/
structure OpenAIChatCompletion where
  id : String
  object : String
  created : Nat
  model : String
  choices : List OpenAIChatChoice
  usage : Option OpenAIUsage

/-- Nested `function` object of a streaming tool-call delta. -/
structure ChunkToolCallFunction where
  name : Option String := none
  arguments : Option String := none

/-- `OpenAIChunkToolCall` from `gemini-to-openai.ts`. -/
structure OpenAIChunkToolCall where
  index : Nat
  id : Option String := none
  type : Option String := none
  function : ChunkToolCallFunction

/-- `OpenAIChunkDelta` from `gemini-to-openai.ts`: all three fields optional. -/
structure OpenAIChunkDelta where
  role : Option String := none
  content : Option String := none
  tool_calls : Option (List OpenAIChunkToolCall) := none

/-- `OpenAIChatChunkChoice` from `gemini-to-openai.ts`. -/
structure OpenAIChatChunkChoice where
  index : Nat
  delta : OpenAIChunkDelta
  finish_reason : Option String

/-- `OpenAIChatCompletionChunk` from `gemini-to-openai.ts`. -/
structure OpenAIChatCompletionChunk where
  id : String
  object : String
  created : Nat
  model : String
  choices : List OpenAIChatChunkChoice

/-- `FINISH_REASON_MAP` from `gemini-to-openai.ts` (the fixed table). -/
def FINISH_REASON_MAP : List (String × String) :=
  [("STOP", "stop"),
   ("MAX_TOKENS", "length"),
   ("SAFETY", "content_filter"),
   ("RECITATION", "content_filter"),
   ("LANGUAGE", "content_filter"),
   ("BLOCKLIST", "content_filter"),
   ("PROHIBITED_CONTENT", "content_filter"),
   ("SPII", "content_filter"),
   ("MALFORMED_FUNCTION_CALL", "stop"),
   ("OTHER", "stop")]

/-- `mapFinishReason` from `gemini-to-openai.ts`.
`if (!reason) return null` is falsy on both `undefined` and the empty string,
hence the explicit empty-string test. -/
def mapFinishReason (reason : Option String) : Option String :=
  match reason with
  | none => none
  | some r => if r = "" then none else some ((FINISH_REASON_MAP.lookup r).getD "stop")

/-- The shared `call_` id construction: the prefix `call_` followed by a fresh
uuid with its dashes stripped, truncated to 24 characters. -/
def mkCallId (u : String) : String :=
  "call_" ++ String.mk ((u.toList.filter (fun c => c ≠ '-')).take 24)

end GeminiToOpenAI

/-! ## Streaming transformer (`sse-transformer.ts`) -/

namespace SseTransformer

open GeminiToOpenAI (OpenAIChatCompletionChunk OpenAIChunkToolCall OpenAIChunkDelta
  OpenAIChatChunkChoice ChunkToolCallFunction mkCallId)

/-- `FINISH_REASON_MAP` from `sse-transformer.ts` (a second copy of the table). -/
def FINISH_REASON_MAP : List (String × String) :=
  [("STOP", "stop"),
   ("MAX_TOKENS", "length"),
   ("SAFETY", "content_filter"),
   ("RECITATION", "content_filter"),
   ("LANGUAGE", "content_filter"),
   ("BLOCKLIST", "content_filter"),
   ("PROHIBITED_CONTENT", "content_filter"),
   ("SPII", "content_filter"),
   ("MALFORMED_FUNCTION_CALL", "stop"),
   ("OTHER", "stop")]

/-- `mapFinishReason` from `sse-transformer.ts`. -/
def mapFinishReason (reason : Option String) : Option String :=
  match reason with
  | none => none
  | some r => if r = "" then none else some ((FINISH_REASON_MAP.lookup r).getD "stop")

/-- `extractFunctionCalls` from `sse-transformer.ts`; the TS filters the parts
and later dereferences `p.functionCall!`, which `filterMap` folds into one step. -/
def extractFunctionCalls (parts : List GeminiPart) : List FunctionCallData :=
  parts.filterMap (fun p => p.functionCall)

/-- The per-stream mutable state of `createSSEStream`:
the "role already sent" flag and the running tool-call index counter. -/
structure SseState where
  sentRole : Bool
  toolCallIndex : Nat

/-- One `pull` of `createSSEStream` on a successfully received backend chunk
(the body of the `pull` callback after `stream.next()` yielded `chunk`).
`uuid k` models the `uuidv4()` call made for the stream's `(k+1)`-th tool call;
`jstringify` models `JSON.stringify`; `completionId`/`created` are the values
generated once when the stream was created. Returns the SSE data chunks
emitted for this backend chunk, and the updated state. -/
def sseStep (uuid : Nat → String) (jstringify : Json → String)
    (completionId : String) (created : Nat) (model : String)
    (st : SseState) (chunk : GeminiResponse) :
    List OpenAIChatCompletionChunk × SseState :=
  let parts := firstCandidateParts chunk
  let functionCalls := extractFunctionCalls parts
  if functionCalls.length > 0 then
    let toolCalls : List OpenAIChunkToolCall :=
      functionCalls.enum.map (fun p =>
        { index := st.toolCallIndex + p.1
          id := some (mkCallId (uuid (st.toolCallIndex + p.1)))
          type := some "function"
          function :=
            { name := some p.2.name
              arguments := some (jstringify (p.2.args.getD (Json.obj []))) } })
    let chunkData : OpenAIChatCompletionChunk :=
      { id := completionId
        object := "chat.completion.chunk"
        created := created
        model := model
        choices :=
          [{ index := 0
             delta :=
               { role := if st.sentRole then none else some "assistant"
                 tool_calls := some toolCalls }
             finish_reason := none }] }
    ([chunkData], { sentRole := true, toolCallIndex := st.toolCallIndex + functionCalls.length })
  else
    -- text content: `parts.filter(p => p.text !== undefined).map(p => p.text).join("")`
    let text := String.join (parts.filterMap (fun p => p.text))
    let textChunks : List OpenAIChatCompletionChunk :=
      if text ≠ "" then
        [{ id := completionId
           object := "chat.completion.chunk"
           created := created
           model := model
           choices :=
             [{ index := 0
                delta :=
                  { role := if st.sentRole then none else some "assistant"
                    content := some text }
                finish_reason := none }] }]
      else []
    let sentRole' := if text ≠ "" then true else st.sentRole
    -- finish reason: emitted after the text chunk, with the override
    let finishChunks : List OpenAIChatCompletionChunk :=
      match mapFinishReason (firstCandidateFinish chunk) with
      | some finishReason =>
        [{ id := completionId
           object := "chat.completion.chunk"
           created := created
           model := model
           choices :=
             [{ index := 0
                delta := {}
                finish_reason :=
                  some (if st.toolCallIndex > 0 then "tool_calls" else finishReason) }] }]
      | none => []
    (textChunks ++ finishChunks, { sentRole := sentRole', toolCallIndex := st.toolCallIndex })

/-- Driving the whole stream: fold `sseStep` over the sequence of backend
chunks in order (the `ReadableStream` pulls them one at a time). -/
def runSse (uuid : Nat → String) (jstringify : Json → String)
    (completionId : String) (created : Nat) (model : String) :
    List GeminiResponse → SseState → List OpenAIChatCompletionChunk
  | [], _ => []
  | r :: rs, st =>
    let step := sseStep uuid jstringify completionId created model st r
    step.1 ++ runSse uuid jstringify completionId created model rs step.2

/-- One serialized SSE frame: either a `data: {json}` chunk or `data: [DONE]`. -/
inductive SseFrame where
  | data : OpenAIChatCompletionChunk → SseFrame
  | done : SseFrame

/-- The full frame sequence of `createSSEStream` on a stream that ends
normally: every emitted chunk as a `data:` frame, then `data: [DONE]`. -/
def sseFrames (uuid : Nat → String) (jstringify : Json → String)
    (completionId : String) (created : Nat) (model : String)
    (chunks : List GeminiResponse) : List SseFrame :=
  (runSse uuid jstringify completionId created model chunks
      { sentRole := false, toolCallIndex := 0 }).map SseFrame.data
    ++ [SseFrame.done]

end SseTransformer

/-! ## Response adapter conversion (`gemini-to-openai.ts`) -/

namespace GeminiToOpenAI

/-- `extractFunctionCalls` from `gemini-to-openai.ts`; as in the streaming
transformer, the filter and the later `p.functionCall!` dereference are folded
into one `filterMap`. -/
def extractFunctionCalls (parts : List GeminiPart) : List FunctionCallData :=
  parts.filterMap (fun p => p.functionCall)

/-- `convertResponse` from `gemini-to-openai.ts`.
`uuid k` models the `(k+1)`-th `uuidv4()` call made during this conversion
(one per synthesized tool call, in order, then one for the completion id);
`now` models `Math.floor(Date.now() / 1000)`; `jstringify` models
`JSON.stringify`. -/
def convertResponse (uuid : Nat → String) (now : Nat) (jstringify : Json → String)
    (geminiResponse : GeminiResponse) (model : String) : OpenAIChatCompletion :=
  let parts := firstCandidateParts geminiResponse
  -- `parts.filter(p => p.text !== undefined)`, kept as the list of text payloads
  let textParts := parts.filterMap (fun p => p.text)
  let functionCalls := extractFunctionCalls parts
  let contentBase : Option String :=
    if textParts.length > 0 then some (String.join textParts) else none
  let toolCalls : Option (List OpenAIResponseToolCall) :=
    if functionCalls.length > 0 then
      some (functionCalls.enum.map (fun p =>
        { id := mkCallId (uuid p.1)
          type := "function"
          function :=
            { name := p.2.name
              arguments := jstringify (p.2.args.getD (Json.obj [])) } }))
    else none
  -- `if (!message.content) message.content = null;` inside the function-call branch
  let content : Option String :=
    match toolCalls with
    | some _ => match contentBase with
      | some s => if s = "" then none else some s
      | none => none
    | none => contentBase
  let message : OpenAIResponseMessage :=
    { role := "assistant", content := content, tool_calls := toolCalls }
  let usage := geminiResponse.usageMetadata
  { id := "chatcmpl-" ++ uuid functionCalls.length
    object := "chat.completion"
    created := now
    model := model
    choices :=
      [{ index := 0
         message := message
         finish_reason :=
           if functionCalls.length > 0 then some "tool_calls"
           else mapFinishReason (firstCandidateFinish geminiResponse) }]
    usage := usage.map (fun u =>
      { prompt_tokens := u.promptTokenCount.getD 0
        completion_tokens := u.candidatesTokenCount.getD 0
        total_tokens := u.totalTokenCount.getD 0 }) }

end GeminiToOpenAI

/-! ## Upstream client (`gemini-client.ts`): retry loop, error sanitization,
SSE line parsing -/

namespace GeminiClient

/-- The observable part of a WHATWG `Response` used by `fetchWithRetry` and
`generateContent`: the HTTP status and the body text (`res.text()`). -/
structure HttpResponse where
  status : Nat
  body : String

/-- `res.ok` of a fetch `Response`: status in the range 200–299. -/
def HttpResponse.okb (r : HttpResponse) : Bool :=
  200 ≤ r.status && r.status < 300

/-- `MAX_RETRIES` from `gemini-client.ts`. -/
def MAX_RETRIES : Nat := 3

/-- The observable behaviour of one `fetchWithRetry` run: the response it
returns, how many `fetch` calls it made, and the backoff sleeps it performed. -/
structure RetryTrace where
  result : HttpResponse
  calls : Nat
  delays : List Nat

/-- The `for (let attempt = 0; attempt <= MAX_RETRIES; attempt++)` loop of
`fetchWithRetry`. `fetch k` is the response of the `(k+1)`-th `fetch` call;
`retryDelayOf` models `parseRetryDelay` applied to the 429 body text (reading
the machine-provided `retryDelay` seconds value out of `error.details`; its
string-to-float conversion is kept abstract). The fuel argument is
`MAX_RETRIES - attempt`: at fuel `0` the loop returns the response
unconditionally (`attempt === MAX_RETRIES`). -/
def retryGo (fetch : Nat → HttpResponse) (retryDelayOf : String → Option Nat)
    (attempt : Nat) : Nat → RetryTrace
  | 0 => { result := fetch attempt, calls := attempt + 1, delays := [] }
  | fuel + 1 =>
    let res := fetch attempt
    if res.status = 429 then
      let delayMs := (retryDelayOf res.body).getD (1000 * (attempt + 1))
      let t := retryGo fetch retryDelayOf (attempt + 1) fuel
      { result := t.result, calls := t.calls, delays := delayMs :: t.delays }
    else { result := res, calls := attempt + 1, delays := [] }

/-- `fetchWithRetry` from `gemini-client.ts`. -/
def fetchWithRetry (fetch : Nat → HttpResponse) (retryDelayOf : String → Option Nat) :
    RetryTrace :=
  retryGo fetch retryDelayOf 0 MAX_RETRIES

/-- `sanitizeApiError` from `gemini-client.ts`: a fixed message per status
class, never derived from the response body. -/
def sanitizeApiError (status : Nat) : String :=
  if status = 400 then "Bad request to upstream API"
  else if status = 401 ∨ status = 403 then "Authentication failed with upstream API"
  else if status = 404 then "Model not found"
  else if status = 429 then "Rate limit exceeded"
  else "Upstream API error (" ++ toString status ++ ")"

/-- The outcome of `generateContent` as observed by its caller. -/
inductive UpstreamResult where
  | ok : GeminiResponse → UpstreamResult
  | apiError : String → Nat → UpstreamResult
  | invalidJson : UpstreamResult

/-- The response-handling tail of `generateContent`: run `fetchWithRetry`, then
`if (!res.ok)` throw the sanitized error carrying the status, else parse the
body as a `CloudCodeResponse` and return its `.response` field.
`parseResponse` models `res.json()` (`none` = the body is not valid JSON). -/
def generateContentModel (fetch : Nat → HttpResponse) (retryDelayOf : String → Option Nat)
    (parseResponse : String → Option CloudCodeResponse) : UpstreamResult :=
  let res := (fetchWithRetry fetch retryDelayOf).result
  if res.okb then
    match parseResponse res.body with
    | some data => .ok data.response
    | none => .invalidJson
  else .apiError (sanitizeApiError res.status) res.status

/-! ### `generateContentStream`: buffered newline-split SSE parsing.
The decoded text is modelled as `List Char` so that splitting and
concatenation admit direct structural reasoning. -/

/-- Decoded streaming text. -/
abbrev Text := List Char

/-- `JSON.parse` of a `data:` line payload, as observed by the streaming loop:
`none` models a thrown `SyntaxError`. -/
abbrev JParse := Text → Option CloudCodeResponse

/-- JavaScript `String.prototype.trim` whitespace (restricted to the ASCII
whitespace the code can meet on an SSE line). -/
def isWsChar (c : Char) : Bool :=
  c = ' ' || c = '\t' || c = '\n' || c = '\r'

/-- `line.trim()`. -/
def trimText (t : Text) : Text :=
  (((t.dropWhile isWsChar).reverse).dropWhile isWsChar).reverse

/-- The 6-character prefix checked by `trimmed.startsWith("data: ")`. -/
def dataTag : Text := ['d', 'a', 't', 'a', ':', ' ']

/-- The `[DONE]` sentinel payload. -/
def doneMarker : Text := ['[', 'D', 'O', 'N', 'E', ']']

/-- `buffer.split("\n")` (JavaScript semantics: `n` newlines give `n + 1`
segments, the empty string gives one empty segment). -/
def splitNl : Text → List Text
  | [] => [[]]
  | c :: rest =>
    if c = '\n' then [] :: splitNl rest
    else
      match splitNl rest with
      | s :: ss => (c :: s) :: ss
      | [] => [[c]]

/-- The `for (const line of lines)` body of `generateContentStream`: process a
batch of complete lines, yielding the unwrapped `.response` of every `data:`
line that parses, skipping lines that fail to parse, and stopping the whole
generator (second component `true`) at a literal `[DONE]` payload. -/
def processLines (jparse : JParse) : List Text → List GeminiResponse × Bool
  | [] => ([], false)
  | line :: rest =>
    let trimmed := trimText line
    if dataTag.isPrefixOf trimmed then
      let dataPart := trimmed.drop 6
      if dataPart = doneMarker then ([], true)
      else
        match jparse dataPart with
        | some parsed =>
          let t := processLines jparse rest
          (parsed.response :: t.1, t.2)
        | none => processLines jparse rest
    else processLines jparse rest

/-- The read loop of `generateContentStream`: each element of `chunks` is one
decoded `reader.read()` value; `buffer` holds the retained trailing partial
line. On exhaustion the remaining buffer is processed like a final line
(`[DONE]` suppressing any yield). -/
def streamGo (jparse : JParse) : List Text → Text → List GeminiResponse
  | [], buffer =>
    let trimmed := trimText buffer
    if dataTag.isPrefixOf trimmed then
      let dataPart := trimmed.drop 6
      if dataPart = doneMarker then []
      else
        match jparse dataPart with
        | some parsed => [parsed.response]
        | none => []
    else []
  | chunk :: rest, buffer =>
    let lines := splitNl (buffer ++ chunk)
    let buffer' := lines.getLastD []
    let completes := lines.dropLast
    let t := processLines jparse completes
    if t.2 then t.1 else t.1 ++ streamGo jparse rest buffer'

/-- The full yielded sequence of `generateContentStream` over the decoded
`reader.read()` chunks. -/
def streamYields (jparse : JParse) (chunks : List Text) : List GeminiResponse :=
  streamGo jparse chunks []

end GeminiClient

/-! ## Request adapter (`openai-to-gemini.ts`) -/

namespace OpenAIToGemini

/-- `OpenAIContentPart` from `openai-to-gemini.ts`. -/
structure OpenAIContentPart where
  type : String
  text : Option String := none
  image_url : Option String := none

/-- The runtime value of an OpenAI message `content` field:
`string | OpenAIContentPart[] | null` (absence is the surrounding `Option`). -/
inductive JsContent where
  | str : String → JsContent
  | arr : List OpenAIContentPart → JsContent
  | null : JsContent

/-- `extractText` from `openai-to-gemini.ts`: `null`/`undefined` give `""`;
a string is returned as is; an array keeps the text-typed parts with a truthy
(present, non-empty) `text` and joins them with newlines. -/
def extractText (content : Option JsContent) : String :=
  match content with
  | none => ""
  | some .null => ""
  | some (.str s) => s
  | some (.arr ps) =>
    String.intercalate "\n"
      ((ps.filter (fun p => p.type == "text" && p.text.getD "" != "")).map
        (fun p => p.text.getD ""))

/-- Nested `function` object of an inbound `OpenAIToolCall`. -/
structure OpenAIToolCallFunction where
  name : String
  arguments : String

/-- `OpenAIToolCall` from `openai-to-gemini.ts`. -/
structure OpenAIToolCall where
  id : String
  type : String
  function : OpenAIToolCallFunction

/-- The four OpenAI chat roles (`msg.role` is one of these string literals). -/
inductive OpenAIRole where
  | system | user | assistant | tool
deriving DecidableEq

/-- `OpenAIMessage` from `openai-to-gemini.ts`. -/
structure OpenAIMessage where
  role : OpenAIRole
  content : Option JsContent := none
  name : Option String := none
  tool_calls : Option (List OpenAIToolCall) := none
  tool_call_id : Option String := none

/-- `GeminiContent` from `openai-to-gemini.ts` (request direction: both fields
required). -/
structure GeminiContent where
  role : String
  parts : List GeminiPart

/-- Raising conversion failures: the only raise in the adapter is
`JSON.parse(tc.function.arguments)` on a malformed argument string. -/
inductive ConvError where
  | toolArgsParse : String → ConvError

/-- `safeParseJson` from `openai-to-gemini.ts`: objects and arrays pass
through, any other parsed value (including `null`) is wrapped as
`{result: value}`, and an unparseable string is wrapped as `{result: string}`. -/
def safeParseJson (parse : String → Option Json) (str : String) : Json :=
  match parse str with
  | some parsed =>
    match parsed with
    | .obj fields => .obj fields
    | .arr elems => .arr elems
    | other => .obj [("result", other)]
  | none => .obj [("result", .str str)]

/-- The `msg.tool_calls` loop of the assistant branch: one function-call part
per tool call, `args` being the `JSON.parse`d argument string; the first
malformed argument string raises. -/
def convertToolCallParts (parse : String → Option Json) :
    List OpenAIToolCall → Except ConvError (List GeminiPart)
  | [] => .ok []
  | tc :: rest =>
    match parse tc.function.arguments with
    | none => .error (.toolArgsParse tc.function.arguments)
    | some args =>
      (convertToolCallParts parse rest).map
        (fun ps => { functionCall := some { name := tc.function.name, args := some args } } :: ps)

/-- The message loop of `convertMessages`, threading the accumulated
`systemInstruction` and `contents`. The system branch mirrors the JS
`systemInstruction ? systemInstruction + "\n" + text : text`, on which an
accumulated empty string is falsy. -/
def convertMessagesGo (parse : String → Option Json) :
    List OpenAIMessage → Option String → List GeminiContent →
    Except ConvError (Option String × List GeminiContent)
  | [], si, contents => .ok (si, contents)
  | msg :: rest, si, contents =>
    match msg.role with
    | .system =>
      let text := extractText msg.content
      let si' : String :=
        match si with
        | some s => if s = "" then text else s ++ "\n" ++ text
        | none => text
      convertMessagesGo parse rest (some si') contents
    | .user =>
      convertMessagesGo parse rest si
        (contents ++ [{ role := "user", parts := [{ text := some (extractText msg.content) }] }])
    | .assistant =>
      let text := extractText msg.content
      let textParts : List GeminiPart := if text ≠ "" then [{ text := some text }] else []
      match convertToolCallParts parse (msg.tool_calls.getD []) with
      | .error e => .error e
      | .ok callParts =>
        let parts := textParts ++ callParts
        convertMessagesGo parse rest si
          (if parts.length > 0 then contents ++ [{ role := "model", parts := parts }] else contents)
    | .tool =>
      convertMessagesGo parse rest si
        (contents ++
          [{ role := "user"
             parts :=
               [{ functionResponse :=
                    some { name := msg.name.getD "unknown"
                           response := safeParseJson parse (extractText msg.content) } }] }])

/-- `convertMessages` from `openai-to-gemini.ts`. -/
def convertMessages (parse : String → Option Json) (messages : List OpenAIMessage) :
    Except ConvError (Option String × List GeminiContent) :=
  convertMessagesGo parse messages none []

/-- `GeminiFunctionDeclaration` from `openai-to-gemini.ts`. -/
structure GeminiFunctionDeclaration where
  name : String
  description : Option String := none
  parametersJsonSchema : Option Json := none

/-- `GeminiTool` from `openai-to-gemini.ts`. -/
structure GeminiTool where
  functionDeclarations : List GeminiFunctionDeclaration

/-- `functionCallingConfig` of a `GeminiToolConfig`. -/
structure FunctionCallingConfig where
  mode : String
  allowedFunctionNames : Option (List String) := none

/-- `GeminiToolConfig` from `openai-to-gemini.ts`. -/
structure GeminiToolConfig where
  functionCallingConfig : FunctionCallingConfig

/-- Nested `function` object of an inbound `OpenAITool` declaration. -/
structure OpenAIToolFunction where
  name : String
  description : Option String := none
  parameters : Option Json := none

/-- `OpenAITool` from `openai-to-gemini.ts`. -/
structure OpenAITool where
  type : String
  function : OpenAIToolFunction

/-- The `stop` sampling parameter: `string | string[]`. -/
inductive StopParam where
  | str : String → StopParam
  | arr : List String → StopParam

/-- The `tool_choice` directive:
`"none" | "auto" | "required" | {type:"function", function:{name}}`. -/
inductive ToolChoice where
  | noneMode | autoMode | requiredMode
  | functionMode : String → ToolChoice

/-- `OpenAIChatRequest` from `openai-to-gemini.ts` (sampling numbers modelled
as integers; the adapter only moves them, never computes with them). -/
structure OpenAIChatRequest where
  model : Option String := none
  messages : List OpenAIMessage
  stream : Option Bool := none
  temperature : Option Int := none
  max_tokens : Option Nat := none
  top_p : Option Int := none
  stop : Option StopParam := none
  tools : Option (List OpenAITool) := none
  tool_choice : Option ToolChoice := none

/-- `generationConfig` of a `GeminiRequestBody`. -/
structure GenerationConfig where
  temperature : Option Int := none
  maxOutputTokens : Option Nat := none
  topP : Option Int := none
  stopSequences : Option (List String) := none

/-- `systemInstruction: { parts: [{ text }] }` of a `GeminiRequestBody`. -/
structure SystemInstructionField where
  parts : List GeminiPart

/-- `GeminiRequestBody` from `openai-to-gemini.ts`. -/
structure GeminiRequestBody where
  contents : List GeminiContent
  systemInstruction : Option SystemInstructionField := none
  generationConfig : Option GenerationConfig := none
  tools : Option (List GeminiTool) := none
  toolConfig : Option GeminiToolConfig := none

/-- `convertTools` from `openai-to-gemini.ts`: absent or empty tool lists give
no backend tools; otherwise one tool group with the `parameters` key renamed
to `parametersJsonSchema`. -/
def convertTools (tools : Option (List OpenAITool)) : Option (List GeminiTool) :=
  match tools with
  | none => none
  | some ts =>
    if ts.length = 0 then none
    else some [{ functionDeclarations := ts.map (fun t =>
      { name := t.function.name
        description := t.function.description
        parametersJsonSchema := t.function.parameters }) }]

/-- `convertToolChoice` from `openai-to-gemini.ts`. -/
def convertToolChoice (toolChoice : Option ToolChoice) : Option GeminiToolConfig :=
  match toolChoice with
  | none => none
  | some .noneMode => some { functionCallingConfig := { mode := "NONE" } }
  | some .autoMode => some { functionCallingConfig := { mode := "AUTO" } }
  | some .requiredMode => some { functionCallingConfig := { mode := "ANY" } }
  | some (.functionMode name) =>
    some { functionCallingConfig := { mode := "ANY", allowedFunctionNames := some [name] } }

/-- `buildRequestBody` from `openai-to-gemini.ts`. A raise from
`convertMessages` propagates (`Except`); `if (systemInstruction)` omits both
an absent and an empty accumulated instruction. -/
def buildRequestBody (parse : String → Option Json) (req : OpenAIChatRequest) :
    Except ConvError GeminiRequestBody :=
  match convertMessages parse req.messages with
  | .error e => .error e
  | .ok (systemInstruction, contents) =>
    let siField : Option SystemInstructionField :=
      match systemInstruction with
      | some s => if s = "" then none else some { parts := [{ text := some s }] }
      | none => none
    let generationConfig : Option GenerationConfig :=
      if req.temperature.isSome || req.max_tokens.isSome || req.top_p.isSome
          || req.stop.isSome then
        some { temperature := req.temperature
               maxOutputTokens := req.max_tokens
               topP := req.top_p
               stopSequences := req.stop.map (fun s =>
                 match s with
                 | .str v => [v]
                 | .arr vs => vs) }
      else none
    .ok { contents := contents
          systemInstruction := siField
          generationConfig := generationConfig
          tools := convertTools req.tools
          toolConfig := convertToolChoice req.tool_choice }

end OpenAIToGemini

/-! ## Chat-completions route (`chat-completions.ts`, `errors.ts`,
`gemini-client.ts` model resolution) -/

namespace ChatRoute

open OpenAIToGemini
open GeminiToOpenAI (OpenAIChatCompletion convertResponse)
open SseTransformer (SseFrame sseFrames)

/-- `MODEL_ALIASES` from `gemini-client.ts`. -/
def MODEL_ALIASES : List (String × String) :=
  [("pro", "gemini-2.5-pro"),
   ("flash", "gemini-2.5-flash"),
   ("3-pro", "gemini-3-pro"),
   ("3-flash", "gemini-3-flash")]

/-- `DEFAULT_MODEL` from `gemini-client.ts`. -/
def DEFAULT_MODEL : String := "gemini-2.5-flash"

/-- JavaScript `a || b` for an optional string `a` (empty string is falsy). -/
def jsOrString (a : Option String) (b : String) : String :=
  match a with
  | some s => if s = "" then b else s
  | none => b

/-- `resolveModel` from `gemini-client.ts`. -/
def resolveModel (model defaultModel : Option String) : String :=
  let m := jsOrString model (jsOrString defaultModel DEFAULT_MODEL)
  (MODEL_ALIASES.lookup m).getD m

/-- The `{error:{message,type,param,code}}` envelope of `formatErrorResponse`
(`errors.ts`). -/
structure ErrorEnvelope where
  message : String
  type : String
  param : Option String
  code : Option String

/-- `formatErrorResponse` from `errors.ts`: absent `param`/`code` become
explicit `null`s. -/
def formatErrorResponse (message type' : String) (param code : Option String) :
    ErrorEnvelope :=
  { message := message, type := type', param := param, code := code }

/-- The runtime shape of the request body's `messages` field as seen by
`if (!body.messages || !Array.isArray(body.messages))`: absent (or otherwise
falsy), present but not an array, or an actual array (an empty array is
truthy and passes both tests). -/
inductive MessagesField where
  | missing
  | nonArray
  | array : List OpenAIMessage → MessagesField

/-- The parsed request body as used by the route handler. -/
structure RequestBody where
  messagesField : MessagesField
  model : Option String := none
  stream : Option Bool := none
  temperature : Option Int := none
  max_tokens : Option Nat := none
  top_p : Option Int := none
  stop : Option StopParam := none
  tools : Option (List OpenAITool) := none
  tool_choice : Option ToolChoice := none

/-- The `OpenAIChatRequest` the route forwards into `buildRequestBody` once
`messages` validated as an array. -/
def RequestBody.toChatRequest (body : RequestBody) (ms : List OpenAIMessage) :
    OpenAIChatRequest :=
  { model := body.model
    messages := ms
    stream := body.stream
    temperature := body.temperature
    max_tokens := body.max_tokens
    top_p := body.top_p
    stop := body.stop
    tools := body.tools
    tool_choice := body.tool_choice }

/-- What a JSON reply of the route carries. -/
inductive ReplyBody where
  | completion : OpenAIChatCompletion → ReplyBody
  | errorBody : ErrorEnvelope → ReplyBody

/-- The observable outcome of one `POST /v1/chat/completions` request:
a JSON reply with an HTTP status, an SSE stream reply, or an exception that
escaped the handler (thrown outside its try/catch). -/
inductive RouteResult where
  | jsonReply : Nat → ReplyBody → RouteResult
  | streamReply : List SseFrame → RouteResult
  | escaped : ConvError → RouteResult

/-- Whether a route outcome is a JSON reply (as opposed to a stream reply or
an exception that escaped the handler). -/
def RouteResult.isJsonReply : RouteResult → Bool
  | .jsonReply _ _ => true
  | _ => false

/-- What one `client.generateContent` call settles to, as caught by the
route's try/catch: success, or a thrown error object whose `message`,
`status` and `code` properties may each be absent. -/
inductive UpstreamOutcome where
  | success : GeminiResponse → UpstreamOutcome
  | failure : Option String → Option Nat → Option Nat → UpstreamOutcome

/-- The catch block of the route:
`status = error.status ?? error.code ?? 500`,
`message = error.message ?? "Internal server error"`, then the
status-to-envelope mapping. -/
def mapCaughtError (message : Option String) (status code : Option Nat) :
    Nat × ErrorEnvelope :=
  let s := match status with
    | some v => v
    | none => code.getD 500
  let m := message.getD "Internal server error"
  if s = 429 then (429, formatErrorResponse m "rate_limit_error" none none)
  else if s = 401 ∨ s = 403 then (401, formatErrorResponse m "authentication_error" none none)
  else if s = 400 then (400, formatErrorResponse m "invalid_request_error" none none)
  else (500, formatErrorResponse m "server_error" none none)

/-- The `POST /v1/chat/completions` handler of `chat-completions.ts`.
`requestJson = none` models a body that failed `c.req.json()`. `upstream`
maps the dispatched Gemini request body to the settled outcome of
`client.generateContent`; `upstreamStream` yields the backend chunks of
`client.generateContentStream` (stream-mode transport errors are outside the
claims and elided). `buildRequestBody` is invoked before the try/catch, so a
conversion raise escapes the handler (`RouteResult.escaped`). -/
def handleChatCompletions (parse : String → Option Json)
    (uuid : Nat → String) (now : Nat) (jstringify : Json → String)
    (upstream : GeminiRequestBody → UpstreamOutcome)
    (upstreamStream : GeminiRequestBody → List GeminiResponse)
    (defaultModel : Option String)
    (requestJson : Option RequestBody) : RouteResult :=
  match requestJson with
  | none =>
    .jsonReply 400 (.errorBody
      (formatErrorResponse "Invalid JSON in request body" "invalid_request_error" none none))
  | some body =>
    match body.messagesField with
    | .missing =>
      .jsonReply 400 (.errorBody
        (formatErrorResponse "'messages' is required and must be an array"
          "invalid_request_error" none none))
    | .nonArray =>
      .jsonReply 400 (.errorBody
        (formatErrorResponse "'messages' is required and must be an array"
          "invalid_request_error" none none))
    | .array ms =>
      let model := resolveModel body.model defaultModel
      match buildRequestBody parse (body.toChatRequest ms) with
      | .error e => .escaped e
      | .ok requestBody =>
        if body.stream.getD false then
          .streamReply
            (sseFrames uuid jstringify ("chatcmpl-" ++ uuid 0) now model
              (upstreamStream requestBody))
        else
          match upstream requestBody with
          | .success result =>
            .jsonReply 200 (.completion (convertResponse uuid now jstringify result model))
          | .failure m s c =>
            let mapped := mapCaughtError m s c
            .jsonReply mapped.1 (.errorBody mapped.2)

end ChatRoute

/-! ## Spec-side helper definitions used to state the claims -/

/-- Newline-join of a list of strings (the spec's "newline-join"). -/
def joinNl : List String → String
  | [] => ""
  | [t] => t
  | t :: ts => t ++ "\n" ++ joinNl ts

namespace OpenAIToGemini

/-- The extracted texts of the system messages, in original order. -/
def systemTexts (messages : List OpenAIMessage) : List String :=
  (messages.filter (fun m =>
    match m.role with
    | .system => true
    | _ => false)).map (fun m => extractText m.content)

/-- The messages that are not system messages, in original order. -/
def nonSystemMessages (messages : List OpenAIMessage) : List OpenAIMessage :=
  messages.filter (fun m =>
    match m.role with
    | .system => false
    | _ => true)

/-- The accumulation the system branch performs on the instruction string. -/
def accumulateSi : Option String → List String → Option String
  | si, [] => si
  | si, t :: ts =>
    accumulateSi
      (some (match si with
             | some s => if s = "" then t else s ++ "\n" ++ t
             | none => t)) ts

end OpenAIToGemini

namespace SseTransformer

/-- Whether an emitted chunk carries `role: "assistant"` in its delta. -/
def chunkHasRole (c : GeminiToOpenAI.OpenAIChatCompletionChunk) : Bool :=
  c.choices.any (fun ch => ch.delta.role.isSome)

/-- Whether an emitted chunk is content-bearing: its delta carries a content
fragment or tool calls (finish chunks carry an empty delta). -/
def chunkContentBearing (c : GeminiToOpenAI.OpenAIChatCompletionChunk) : Bool :=
  c.choices.any (fun ch => ch.delta.content.isSome || ch.delta.tool_calls.isSome)

/-- No chunk of the list carries `role` in its delta. -/
def noMoreRoles (cs : List GeminiToOpenAI.OpenAIChatCompletionChunk) : Bool :=
  cs.all (fun c => !chunkHasRole c)

/-- Checks the role discipline of an emitted chunk sequence: `role` appears on
at most one chunk, that chunk is content-bearing, and no content-bearing
chunk precedes it (it is the first content-bearing chunk of the stream).
`seenCB` records whether a content-bearing chunk has already passed. -/
def roleDiscipline : Bool → List GeminiToOpenAI.OpenAIChatCompletionChunk → Bool
  | _, [] => true
  | seenCB, c :: cs =>
    if chunkHasRole c then !seenCB && chunkContentBearing c && noMoreRoles cs
    else roleDiscipline (seenCB || chunkContentBearing c) cs

end SseTransformer

namespace GeminiClient

/-- Joins two split-line runs at their boundary: the last segment of the
first run concatenates with the first segment of the second. -/
def glue : List Text → List Text → List Text
  | [], ys => ys
  | [x], [] => [x]
  | [x], y :: ys => (x ++ y) :: ys
  | x :: x2 :: xs, ys => x :: glue (x2 :: xs) ys

end GeminiClient

/-! ## Concrete example inputs -/

namespace Examples

/-- A parse function that rejects every string (a `JSON.parse` that throws on
the inputs at hand). -/
def rejectParse : String → Option Json := fun _ => none

/-- An assistant message carrying one tool call whose arguments string is not
valid JSON under `rejectParse`. -/
def badToolArgsMessage : OpenAIToGemini.OpenAIMessage :=
  { role := .assistant
    tool_calls := some
      [{ id := "call_1"
         type := "function"
         function := { name := "f", arguments := "not json" } }] }

/-- A system message whose extracted text is empty. -/
def sysEmpty : OpenAIToGemini.OpenAIMessage :=
  { role := .system, content := some (.str "") }

/-- A system message whose extracted text is `"a"`. -/
def sysA : OpenAIToGemini.OpenAIMessage :=
  { role := .system, content := some (.str "a") }

/-- Streaming partial `{text:"Hello"}` of the spec's example. -/
def helloChunk : GeminiResponse :=
  { candidates := some
      [{ content := some { parts := some [{ text := some "Hello" }], role := some "model" } }] }

/-- Streaming partial `{text:" world", finishReason:"STOP"}` of the spec's
example. -/
def worldStopChunk : GeminiResponse :=
  { candidates := some
      [{ content := some { parts := some [{ text := some " world" }], role := some "model" }
         finishReason := some "STOP" }] }

/-- A partial that carries a function-call part, a text part and a finish
reason all at once. -/
def mixedChunk : GeminiResponse :=
  { candidates := some
      [{ content := some
           { parts := some
               [{ functionCall := some { name := "f", args := some (Json.obj []) } },
                { text := some "hi" }]
             role := some "model" }
         finishReason := some "STOP" }] }

end Examples

/-! ## Theorems -/

section Theorems

/-! ### C6: the finish-reason mapping -/

/-- Claim C6 (confirmed): the finish-reason mapping is a total deterministic
function, identical in the Response Adapter and the Streaming Transformer:
STOP maps to stop, MAX_TOKENS to length, each of SAFETY, RECITATION, LANGUAGE,
BLOCKLIST, PROHIBITED_CONTENT, SPII to content_filter,
MALFORMED_FUNCTION_CALL to stop, every other non-empty string to stop, and an
absent reason to null. -/
theorem c6_finish_reason_mapping :
    SseTransformer.mapFinishReason = GeminiToOpenAI.mapFinishReason
    ∧ (GeminiToOpenAI.mapFinishReason (some "STOP") = some "stop"
       ∧ GeminiToOpenAI.mapFinishReason (some "MAX_TOKENS") = some "length"
       ∧ GeminiToOpenAI.mapFinishReason (some "SAFETY") = some "content_filter"
       ∧ GeminiToOpenAI.mapFinishReason (some "RECITATION") = some "content_filter"
       ∧ GeminiToOpenAI.mapFinishReason (some "LANGUAGE") = some "content_filter"
       ∧ GeminiToOpenAI.mapFinishReason (some "BLOCKLIST") = some "content_filter"
       ∧ GeminiToOpenAI.mapFinishReason (some "PROHIBITED_CONTENT") = some "content_filter"
       ∧ GeminiToOpenAI.mapFinishReason (some "SPII") = some "content_filter"
       ∧ GeminiToOpenAI.mapFinishReason (some "MALFORMED_FUNCTION_CALL") = some "stop")
    ∧ GeminiToOpenAI.mapFinishReason none = none
    ∧ (∀ s : String, s ≠ "" → GeminiToOpenAI.FINISH_REASON_MAP.lookup s = none →
        GeminiToOpenAI.mapFinishReason (some s) = some "stop") := by
  refine ⟨rfl, ⟨rfl, rfl, rfl, rfl, rfl, rfl, rfl, rfl, rfl⟩, rfl, ?_⟩
  intro s hs hlook
  simp [GeminiToOpenAI.mapFinishReason, hs, hlook]

/-- Witness for C6: the unrecognized-string clause at a concrete reason. -/
theorem c6_finish_reason_mapping_witness :
    GeminiToOpenAI.mapFinishReason (some "UNKNOWN_REASON") = some "stop" :=
  c6_finish_reason_mapping.2.2.2 "UNKNOWN_REASON" (by decide) (by decide)

/-! ### C2 and C7: the retry loop and error sanitization -/

theorem retryGo_zero (fetch : Nat → GeminiClient.HttpResponse)
    (rd : String → Option Nat) (attempt : Nat) :
    GeminiClient.retryGo fetch rd attempt 0 =
      { result := fetch attempt, calls := attempt + 1, delays := [] } := rfl

theorem retryGo_stop (fetch : Nat → GeminiClient.HttpResponse)
    (rd : String → Option Nat) (attempt fuel : Nat)
    (h : (fetch attempt).status ≠ 429) :
    GeminiClient.retryGo fetch rd attempt (fuel + 1) =
      { result := fetch attempt, calls := attempt + 1, delays := [] } := by
  simp [GeminiClient.retryGo, h]

theorem retryGo_again (fetch : Nat → GeminiClient.HttpResponse)
    (rd : String → Option Nat) (attempt fuel : Nat)
    (h : (fetch attempt).status = 429) :
    GeminiClient.retryGo fetch rd attempt (fuel + 1) =
      { result := (GeminiClient.retryGo fetch rd (attempt + 1) fuel).result
        calls := (GeminiClient.retryGo fetch rd (attempt + 1) fuel).calls
        delays := ((rd (fetch attempt).body).getD (1000 * (attempt + 1)))
          :: (GeminiClient.retryGo fetch rd (attempt + 1) fuel).delays } := by
  simp [GeminiClient.retryGo, h]

/-- Claim C2 (confirmed): a 429 response triggers a retry after the delay the
backend's error body provides, or after 1000ms times (attempt + 1) when it is
absent; at most 3 additional attempts are made, so 4 upstream calls in total,
after which a rate-limited failure carrying the last HTTP status is surfaced;
a non-429 response is returned immediately on any attempt, so a 429 followed
by a 200 yields exactly 2 calls with the 200 body surfaced. -/
theorem c2_retry_loop (fetch : Nat → GeminiClient.HttpResponse)
    (rd : String → Option Nat)
    (parseResponse : String → Option CloudCodeResponse) :
    ((fetch 0).status ≠ 429 →
      GeminiClient.fetchWithRetry fetch rd =
        { result := fetch 0, calls := 1, delays := [] })
    ∧ ((fetch 0).status = 429 → (fetch 1).status ≠ 429 →
      GeminiClient.fetchWithRetry fetch rd =
        { result := fetch 1, calls := 2,
          delays := [(rd (fetch 0).body).getD 1000] })
    ∧ ((fetch 0).status = 429 → (fetch 1).status = 200 →
      ∀ data, parseResponse (fetch 1).body = some data →
        GeminiClient.generateContentModel fetch rd parseResponse = .ok data.response)
    ∧ ((∀ k, k ≤ 3 → (fetch k).status = 429) →
      GeminiClient.fetchWithRetry fetch rd =
        { result := fetch 3, calls := 4,
          delays := [(rd (fetch 0).body).getD 1000,
                     (rd (fetch 1).body).getD 2000,
                     (rd (fetch 2).body).getD 3000] }
      ∧ GeminiClient.generateContentModel fetch rd parseResponse =
          .apiError "Rate limit exceeded" 429) := by
  have hmr : GeminiClient.MAX_RETRIES = 2 + 1 := rfl
  refine ⟨?_, ?_, ?_, ?_⟩
  · intro h0
    rw [GeminiClient.fetchWithRetry, hmr, retryGo_stop fetch rd 0 2 h0]
  · intro h0 h1
    rw [GeminiClient.fetchWithRetry, hmr, retryGo_again fetch rd 0 2 h0,
      show (2 : Nat) = 1 + 1 from rfl, retryGo_stop fetch rd 1 1 h1]
  · intro h0 h1 data hdata
    have h1' : (fetch 1).status ≠ 429 := by rw [h1]; decide
    have hfr : GeminiClient.fetchWithRetry fetch rd =
        { result := fetch 1, calls := 2, delays := [(rd (fetch 0).body).getD 1000] } := by
      rw [GeminiClient.fetchWithRetry, hmr, retryGo_again fetch rd 0 2 h0,
        show (2 : Nat) = 1 + 1 from rfl, retryGo_stop fetch rd 1 1 h1']
    have hok : (fetch 1).okb = true := by
      simp [GeminiClient.HttpResponse.okb, h1]
    simp [GeminiClient.generateContentModel, hfr, hok, hdata]
  · intro hall
    have h0 := hall 0 (by decide)
    have h1 := hall 1 (by decide)
    have h2 := hall 2 (by decide)
    have h3 := hall 3 (by decide)
    have hfr : GeminiClient.fetchWithRetry fetch rd =
        { result := fetch 3, calls := 4,
          delays := [(rd (fetch 0).body).getD 1000,
                     (rd (fetch 1).body).getD 2000,
                     (rd (fetch 2).body).getD 3000] } := by
      rw [GeminiClient.fetchWithRetry, hmr, retryGo_again fetch rd 0 2 h0,
        show (2 : Nat) = 1 + 1 from rfl, retryGo_again fetch rd 1 1 h1,
        show (1 : Nat) = 0 + 1 from rfl, retryGo_again fetch rd 2 0 h2,
        retryGo_zero]
    have hok : (fetch 3).okb = false := by
      simp [GeminiClient.HttpResponse.okb, h3]
    refine ⟨hfr, ?_⟩
    simp [GeminiClient.generateContentModel, hfr, hok, h3,
      GeminiClient.sanitizeApiError]

/-- Witness for C2: a concrete 429 (with no machine-provided delay) followed
by a 200 yields two calls, a 1000ms backoff and the 200 body surfaced. -/
theorem c2_retry_loop_witness :
    GeminiClient.fetchWithRetry
        (fun k => if k = 0 then { status := 429, body := "b0" }
                  else { status := 200, body := "ok" })
        (fun _ => none) =
      { result := { status := 200, body := "ok" }, calls := 2, delays := [1000] }
    ∧ GeminiClient.generateContentModel
        (fun k => if k = 0 then { status := 429, body := "b0" }
                  else { status := 200, body := "ok" })
        (fun _ => none)
        (fun s => if s = "ok" then some { response := {} } else none) =
      .ok {} := by
  constructor
  · exact (c2_retry_loop
      (fun k => if k = 0 then { status := 429, body := "b0" }
                else { status := 200, body := "ok" })
      (fun _ => none)
      (fun s => if s = "ok" then some { response := {} } else none)).2.1
      (by decide) (by decide)
  · exact (c2_retry_loop
      (fun k => if k = 0 then { status := 429, body := "b0" }
                else { status := 200, body := "ok" })
      (fun _ => none)
      (fun s => if s = "ok" then some { response := {} } else none)).2.2.1
      (by decide) (by decide) { response := {} } rfl

/-- Claim C7 (confirmed): a non-429 upstream HTTP failure is raised
immediately (a single call, no retry) with a fixed sanitized message
determined solely by the HTTP status class (400, 401/403, 404, 429, other)
and never derived from the backend body; at the HTTP boundary such an error
surfaces as 429 rate_limit_error, 401 authentication_error (also covering
403), 400 invalid_request_error, and otherwise 500 server_error, in the
message/type/param/code envelope. -/
theorem c7_sanitized_upstream_errors :
    (∀ (fetch : Nat → GeminiClient.HttpResponse) (rd : String → Option Nat)
       (parseResponse : String → Option CloudCodeResponse) (s : Nat),
      (fetch 0).status = s → s ≠ 429 → (fetch 0).okb = false →
      GeminiClient.generateContentModel fetch rd parseResponse =
        .apiError (GeminiClient.sanitizeApiError s) s
      ∧ (GeminiClient.fetchWithRetry fetch rd).calls = 1)
    ∧ (GeminiClient.sanitizeApiError 400 = "Bad request to upstream API"
       ∧ GeminiClient.sanitizeApiError 401 = "Authentication failed with upstream API"
       ∧ GeminiClient.sanitizeApiError 403 = "Authentication failed with upstream API"
       ∧ GeminiClient.sanitizeApiError 404 = "Model not found"
       ∧ GeminiClient.sanitizeApiError 429 = "Rate limit exceeded"
       ∧ ∀ s : Nat, s ∉ ([400, 401, 403, 404, 429] : List Nat) →
           GeminiClient.sanitizeApiError s = "Upstream API error (" ++ toString s ++ ")")
    ∧ (∀ (parse : String → Option Json) (uuid : Nat → String) (now : Nat)
         (jstringify : Json → String)
         (upstreamStream : OpenAIToGemini.GeminiRequestBody → List GeminiResponse)
         (defaultModel : Option String) (body : ChatRoute.RequestBody)
         (ms : List OpenAIToGemini.OpenAIMessage) (m : String) (s : Nat)
         (rb : OpenAIToGemini.GeminiRequestBody),
      body.messagesField = .array ms →
      body.stream.getD false = false →
      OpenAIToGemini.buildRequestBody parse (body.toChatRequest ms) = .ok rb →
      ChatRoute.handleChatCompletions parse uuid now jstringify
          (fun _ => .failure (some m) (some s) none) upstreamStream defaultModel
          (some body) =
        .jsonReply
          (if s = 429 then 429 else if s = 401 ∨ s = 403 then 401
           else if s = 400 then 400 else 500)
          (.errorBody (ChatRoute.formatErrorResponse m
            (if s = 429 then "rate_limit_error"
             else if s = 401 ∨ s = 403 then "authentication_error"
             else if s = 400 then "invalid_request_error" else "server_error")
            none none))) := by
  refine ⟨?_, ⟨rfl, rfl, rfl, rfl, rfl, ?_⟩, ?_⟩
  · intro fetch rd parseResponse s hs h429 hok
    have hne : (fetch 0).status ≠ 429 := by rw [hs]; exact h429
    have hfr : GeminiClient.fetchWithRetry fetch rd =
        { result := fetch 0, calls := 1, delays := [] } := by
      rw [GeminiClient.fetchWithRetry, show GeminiClient.MAX_RETRIES = 2 + 1 from rfl,
        retryGo_stop fetch rd 0 2 hne]
    constructor
    · simp [GeminiClient.generateContentModel, hfr, hok, hs]
    · rw [hfr]
  · intro s hs
    simp only [List.mem_cons, List.not_mem_nil, or_false, not_or] at hs
    obtain ⟨h400, h401, h403, h404, h429⟩ := hs
    simp [GeminiClient.sanitizeApiError, h400, h401, h403, h404, h429]
  · intro parse uuid now jstringify upstreamStream defaultModel body ms m s rb
      hmf hstream hrb
    simp only [ChatRoute.handleChatCompletions, hmf, hrb, hstream,
      Bool.false_eq_true, if_false, ChatRoute.mapCaughtError]
    by_cases h429 : s = 429
    · simp [h429]
    · by_cases hauth : s = 401 ∨ s = 403
      · simp [h429, hauth]
      · by_cases h400 : s = 400
        · simp [h429, hauth, h400]
        · simp [h429, hauth, h400]

/-- Witness for C7: a concrete 404 response is raised in one call with the
fixed "Model not found" message, and a 403 upstream failure surfaces as a 401
authentication_error envelope. -/
theorem c7_sanitized_upstream_errors_witness :
    (GeminiClient.generateContentModel
        (fun _ => { status := 404, body := "secret upstream body" })
        (fun _ => none) (fun _ => none) =
      .apiError "Model not found" 404)
    ∧ ChatRoute.handleChatCompletions (fun _ => none) (fun _ => "u") 0 (fun _ => "")
        (fun _ => .failure (some "Authentication failed with upstream API") (some 403) none)
        (fun _ => []) none
        (some { messagesField := .array [] }) =
      .jsonReply 401 (.errorBody (ChatRoute.formatErrorResponse
        "Authentication failed with upstream API" "authentication_error" none none)) := by
  constructor
  · exact ((c7_sanitized_upstream_errors.1
      (fun _ => { status := 404, body := "secret upstream body" })
      (fun _ => none) (fun _ => none) 404 rfl (by decide) (by decide)).1)
  · have h := c7_sanitized_upstream_errors.2.2 (fun _ => none) (fun _ => "u") 0
      (fun _ => "") (fun _ => []) none { messagesField := .array [] } []
      "Authentication failed with upstream API" 403
      { contents := [] } rfl rfl rfl
    simpa using h

/-! ### C10: `messages: []` passes validation -/

/-- Claim C10 (confirmed): the route's validation rejects exactly a missing or
non-array `messages` field, so a request with `messages: []` is not rejected
with 400; it converts to an empty `contents` sequence with no
`systemInstruction` and is dispatched upstream, a successful upstream call
yielding a 200 reply. -/
theorem c10_empty_messages_dispatched
    (parse : String → Option Json) (uuid : Nat → String) (now : Nat)
    (jstringify : Json → String)
    (upstream : OpenAIToGemini.GeminiRequestBody → ChatRoute.UpstreamOutcome)
    (upstreamStream : OpenAIToGemini.GeminiRequestBody → List GeminiResponse)
    (defaultModel : Option String) :
    (∀ body : ChatRoute.RequestBody,
      body.messagesField = .missing ∨ body.messagesField = .nonArray →
      ChatRoute.handleChatCompletions parse uuid now jstringify upstream
          upstreamStream defaultModel (some body) =
        .jsonReply 400 (.errorBody (ChatRoute.formatErrorResponse
          "'messages' is required and must be an array" "invalid_request_error" none none)))
    ∧ OpenAIToGemini.buildRequestBody parse { messages := [] } = .ok { contents := [] }
    ∧ (∀ r, upstream { contents := [] } = .success r →
        ChatRoute.handleChatCompletions parse uuid now jstringify upstream
            upstreamStream defaultModel (some { messagesField := .array [] }) =
          .jsonReply 200 (.completion (GeminiToOpenAI.convertResponse uuid now jstringify r
            (ChatRoute.resolveModel none defaultModel))))
    ∧ (∀ r, upstream { contents := [] } = .success r →
        ∀ b, ChatRoute.handleChatCompletions parse uuid now jstringify upstream
            upstreamStream defaultModel (some { messagesField := .array [] }) ≠
          .jsonReply 400 b) := by
  have hdispatch : ∀ r, upstream { contents := [] } = .success r →
      ChatRoute.handleChatCompletions parse uuid now jstringify upstream
          upstreamStream defaultModel (some { messagesField := .array [] }) =
        .jsonReply 200 (.completion (GeminiToOpenAI.convertResponse uuid now jstringify r
          (ChatRoute.resolveModel none defaultModel))) := by
    intro r hr
    have hbuild : OpenAIToGemini.buildRequestBody parse
        (ChatRoute.RequestBody.toChatRequest { messagesField := .array [] } []) =
        .ok { contents := [] } := rfl
    simp only [ChatRoute.handleChatCompletions, hbuild, Option.getD_none,
      Bool.false_eq_true, if_false, hr]
  refine ⟨?_, rfl, hdispatch, ?_⟩
  · intro body hval
    rcases hval with h | h <;>
      simp only [ChatRoute.handleChatCompletions, h]
  · intro r hr b hc
    rw [hdispatch r hr] at hc
    injection hc with h1 h2
    exact absurd h1 (by decide)

/-- Witness for C10: a concrete empty-messages request with a trivially
succeeding upstream yields a 200 completion reply. -/
theorem c10_empty_messages_dispatched_witness :
    ChatRoute.handleChatCompletions (fun _ => none) (fun _ => "u") 7 (fun _ => "")
        (fun _ => .success {}) (fun _ => []) none
        (some { messagesField := .array [] }) =
      .jsonReply 200 (.completion (GeminiToOpenAI.convertResponse
        (fun _ => "u") 7 (fun _ => "") {} "gemini-2.5-flash")) :=
  (c10_empty_messages_dispatched (fun _ => none) (fun _ => "u") 7 (fun _ => "")
    (fun _ => .success {}) (fun _ => []) none).2.2.1 {} rfl

/-! ### C5: malformed tool-call arguments -/

theorem convertToolCallParts_error_shape (parse : String → Option Json)
    (l : List OpenAIToGemini.OpenAIToolCall) (e : OpenAIToGemini.ConvError)
    (h : OpenAIToGemini.convertToolCallParts parse l = .error e) :
    ∃ a, e = .toolArgsParse a ∧ parse a = none := by
  induction l generalizing e with
  | nil => exact absurd h (by simp [OpenAIToGemini.convertToolCallParts])
  | cons tc rest ih =>
    rw [OpenAIToGemini.convertToolCallParts] at h
    cases hp : parse tc.function.arguments with
    | none =>
      rw [hp] at h
      injection h with h'
      exact ⟨tc.function.arguments, h'.symm, hp⟩
    | some args =>
      rw [hp] at h
      cases hr : OpenAIToGemini.convertToolCallParts parse rest with
      | error e' =>
        rw [hr] at h
        simp only [Except.map] at h
        injection h with h'
        exact h' ▸ ih e' hr
      | ok ps =>
        rw [hr] at h
        simp [Except.map] at h

theorem convertToolCallParts_error_of_bad (parse : String → Option Json)
    (l : List OpenAIToGemini.OpenAIToolCall)
    (h : ∃ tc ∈ l, parse tc.function.arguments = none) :
    ∃ a, OpenAIToGemini.convertToolCallParts parse l =
      .error (.toolArgsParse a) ∧ parse a = none := by
  induction l with
  | nil => simp at h
  | cons tc' rest ih =>
    cases hp : parse tc'.function.arguments with
    | none =>
      exact ⟨tc'.function.arguments, by rw [OpenAIToGemini.convertToolCallParts, hp], hp⟩
    | some args =>
      obtain ⟨tc, htc, hptc⟩ := h
      rcases List.mem_cons.mp htc with rfl | hmem
      · rw [hp] at hptc; exact absurd hptc (by simp)
      · obtain ⟨a, ha, hpa⟩ := ih ⟨tc, hmem, hptc⟩
        refine ⟨a, ?_, hpa⟩
        rw [OpenAIToGemini.convertToolCallParts, hp, ha]
        rfl

theorem convertMessagesGo_error_of_bad (parse : String → Option Json)
    (msgs : List OpenAIToGemini.OpenAIMessage) :
    ∀ si cts,
    (∃ m ∈ msgs, m.role = .assistant ∧
      ∃ tc ∈ m.tool_calls.getD [], parse tc.function.arguments = none) →
    ∃ a, OpenAIToGemini.convertMessagesGo parse msgs si cts =
      .error (.toolArgsParse a) ∧ parse a = none := by
  induction msgs with
  | nil => intro si cts h; simp at h
  | cons msg rest ih =>
    intro si cts h
    obtain ⟨m, hm, hrole, htc⟩ := h
    rcases List.mem_cons.mp hm with rfl | hmem
    · -- the failing message is the head, which must be an assistant message
      rw [OpenAIToGemini.convertMessagesGo, hrole]
      obtain ⟨a, ha, hpa⟩ := convertToolCallParts_error_of_bad parse
        (m.tool_calls.getD []) htc
      rw [ha]
      exact ⟨a, rfl, hpa⟩
    · -- the failing message is further on: the head either raises itself or steps
      rw [OpenAIToGemini.convertMessagesGo]
      cases hrole' : msg.role with
      | system => exact ih _ _ ⟨m, hmem, hrole, htc⟩
      | user => exact ih _ _ ⟨m, hmem, hrole, htc⟩
      | tool => exact ih _ _ ⟨m, hmem, hrole, htc⟩
      | assistant =>
        cases hcp : OpenAIToGemini.convertToolCallParts parse (msg.tool_calls.getD []) with
        | error e =>
          obtain ⟨a, ha, hpa⟩ := convertToolCallParts_error_shape parse _ _ hcp
          exact ⟨a, by rw [ha], hpa⟩
        | ok callParts => exact ih _ _ ⟨m, hmem, hrole, htc⟩

/-- Claim C5 (corrected): the Request Adapter does raise a parse failure on an
assistant message whose tool-call arguments string is not valid JSON — but the
route handler invokes the adapter BEFORE entering its try/catch, so the
failure escapes the `POST /v1/chat/completions` handler unmapped instead of
being caught and turned into an HTTP 400 invalid_request_error envelope. -/
theorem c5_tool_args_parse_failure_escapes (parse : String → Option Json)
    (msgs : List OpenAIToGemini.OpenAIMessage) :
    ((∃ m ∈ msgs, m.role = .assistant ∧
        ∃ tc ∈ m.tool_calls.getD [], parse tc.function.arguments = none) →
      ∃ a, OpenAIToGemini.convertMessages parse msgs =
        .error (.toolArgsParse a) ∧ parse a = none)
    ∧ (∀ (uuid : Nat → String) (now : Nat) (jstringify : Json → String)
         (upstream : OpenAIToGemini.GeminiRequestBody → ChatRoute.UpstreamOutcome)
         (upstreamStream : OpenAIToGemini.GeminiRequestBody → List GeminiResponse)
         (defaultModel : Option String) (body : ChatRoute.RequestBody)
         (e : OpenAIToGemini.ConvError),
        body.messagesField = .array msgs →
        OpenAIToGemini.convertMessages parse msgs = .error e →
        ChatRoute.handleChatCompletions parse uuid now jstringify upstream
            upstreamStream defaultModel (some body) = .escaped e) := by
  constructor
  · intro h
    exact convertMessagesGo_error_of_bad parse msgs none [] h
  · intro uuid now jstringify upstream upstreamStream defaultModel body e hmf hconv
    have hbuild : OpenAIToGemini.buildRequestBody parse
        (ChatRoute.RequestBody.toChatRequest body msgs) = .error e := by
      rw [OpenAIToGemini.buildRequestBody]
      simp only [ChatRoute.RequestBody.toChatRequest] at *
      rw [hconv]
    simp only [ChatRoute.handleChatCompletions, hmf, hbuild]

/-- Witness for C5 (amended): at the concrete bad-arguments request the
adapter raises and the route lets the raise escape. -/
theorem c5_tool_args_parse_failure_escapes_witness :
    OpenAIToGemini.convertMessages Examples.rejectParse [Examples.badToolArgsMessage] =
      .error (.toolArgsParse "not json")
    ∧ ChatRoute.handleChatCompletions Examples.rejectParse (fun _ => "u") 0 (fun _ => "")
        (fun _ => .success {}) (fun _ => []) none
        (some { messagesField := .array [Examples.badToolArgsMessage] }) =
      .escaped (.toolArgsParse "not json") := by
  have h1 : OpenAIToGemini.convertMessages Examples.rejectParse
      [Examples.badToolArgsMessage] = .error (.toolArgsParse "not json") := rfl
  exact ⟨h1, (c5_tool_args_parse_failure_escapes Examples.rejectParse
    [Examples.badToolArgsMessage]).2 (fun _ => "u") 0 (fun _ => "")
    (fun _ => .success {}) (fun _ => []) none
    { messagesField := .array [Examples.badToolArgsMessage] }
    (.toolArgsParse "not json") rfl h1⟩

/-- Counterexample for C5 as stated: at the concrete bad-arguments request the
route's outcome is an escaped exception, not an HTTP 400 reply carrying an
error envelope (nor any JSON reply at all). -/
theorem c5_counterexample :
    ChatRoute.handleChatCompletions Examples.rejectParse (fun _ => "u") 0 (fun _ => "")
        (fun _ => .success {}) (fun _ => []) none
        (some { messagesField := .array [Examples.badToolArgsMessage] }) =
      .escaped (.toolArgsParse "not json")
    ∧ (ChatRoute.handleChatCompletions Examples.rejectParse (fun _ => "u") 0 (fun _ => "")
        (fun _ => .success {}) (fun _ => []) none
        (some { messagesField := .array [Examples.badToolArgsMessage] })).isJsonReply =
      false :=
  ⟨rfl, rfl⟩

/-! ### C3: system messages and the system instruction -/

theorem string_append_nl_ne_empty (s t : String) : s ++ "\n" ++ t ≠ "" := by
  intro h
  have := congrArg String.length h
  simp [String.length_append] at this
  exact absurd this.1.2 (by decide)

theorem joinNl_glue (s t : String) (ts : List String) :
    joinNl ((s ++ "\n" ++ t) :: ts) = joinNl (s :: t :: ts) := by
  cases ts with
  | nil => simp [joinNl]
  | cons u us => simp [joinNl, String.append_assoc]

theorem accumulateSi_none_cons (t : String) (ts : List String) :
    OpenAIToGemini.accumulateSi none (t :: ts) =
      OpenAIToGemini.accumulateSi (some t) ts := rfl

theorem accumulateSi_some_cons (s t : String) (ts : List String) :
    OpenAIToGemini.accumulateSi (some s) (t :: ts) =
      OpenAIToGemini.accumulateSi (some (if s = "" then t else s ++ "\n" ++ t)) ts := rfl

theorem accumulateSi_some_ne (ts : List String) :
    ∀ s : String, s ≠ "" →
      OpenAIToGemini.accumulateSi (some s) ts = some (joinNl (s :: ts)) := by
  induction ts with
  | nil => intro s _; simp [OpenAIToGemini.accumulateSi, joinNl]
  | cons t ts ih =>
    intro s hs
    rw [accumulateSi_some_cons, if_neg hs,
      ih (s ++ "\n" ++ t) (string_append_nl_ne_empty s t), joinNl_glue]

theorem accumulateSi_none (ts : List String) (hne : ts ≠ []) :
    OpenAIToGemini.accumulateSi none ts =
      some (joinNl (ts.dropWhile (fun t => t == ""))) := by
  induction ts with
  | nil => exact absurd rfl hne
  | cons t ts ih =>
    rw [accumulateSi_none_cons]
    by_cases ht : t = ""
    · subst ht
      cases ts with
      | nil => simp [OpenAIToGemini.accumulateSi, joinNl, List.dropWhile]
      | cons u us =>
        have h := ih (by simp)
        rw [accumulateSi_none_cons] at h
        rw [accumulateSi_some_cons, if_pos rfl]
        rw [h]
        simp [List.dropWhile]
    · rw [accumulateSi_some_ne ts t ht]
      have hb : (t == "") = false := beq_eq_false_iff_ne.mpr ht
      simp [List.dropWhile, hb]

theorem convertMessagesGo_si (parse : String → Option Json)
    (msgs : List OpenAIToGemini.OpenAIMessage) :
    ∀ si cts r, OpenAIToGemini.convertMessagesGo parse msgs si cts = .ok r →
      r.1 = OpenAIToGemini.accumulateSi si (OpenAIToGemini.systemTexts msgs) := by
  induction msgs with
  | nil =>
    intro si cts r h
    rw [OpenAIToGemini.convertMessagesGo] at h
    injection h with h'
    rw [← h']
    rfl
  | cons msg rest ih =>
    intro si cts r h
    rcases msg with ⟨role, content, mname, tcs, tcid⟩
    cases role with
    | system =>
      rw [OpenAIToGemini.convertMessagesGo] at h
      have h1 := ih _ _ r h
      rw [h1]
      simp only [OpenAIToGemini.systemTexts, List.filter_cons, List.map_cons]
      rfl
    | user =>
      rw [OpenAIToGemini.convertMessagesGo] at h
      have h1 := ih _ _ r h
      rw [h1]
      simp [OpenAIToGemini.systemTexts, List.filter_cons]
    | assistant =>
      rw [OpenAIToGemini.convertMessagesGo] at h
      cases hcp : OpenAIToGemini.convertToolCallParts parse (tcs.getD []) with
      | error e => rw [hcp] at h; exact absurd h (by simp)
      | ok callParts =>
        rw [hcp] at h
        have h1 := ih _ _ r h
        rw [h1]
        simp [OpenAIToGemini.systemTexts, List.filter_cons]
    | tool =>
      rw [OpenAIToGemini.convertMessagesGo] at h
      have h1 := ih _ _ r h
      rw [h1]
      simp [OpenAIToGemini.systemTexts, List.filter_cons]

theorem convertMessagesGo_contents (parse : String → Option Json)
    (msgs : List OpenAIToGemini.OpenAIMessage) :
    ∀ si si2 cts,
      (OpenAIToGemini.convertMessagesGo parse msgs si cts).map Prod.snd =
        (OpenAIToGemini.convertMessagesGo parse
          (OpenAIToGemini.nonSystemMessages msgs) si2 cts).map Prod.snd := by
  induction msgs with
  | nil => intro si si2 cts; rfl
  | cons msg rest ih =>
    intro si si2 cts
    rcases msg with ⟨role, content, mname, tcs, tcid⟩
    cases role with
    | system =>
      have hns : OpenAIToGemini.nonSystemMessages
          ({ role := .system, content := content, name := mname, tool_calls := tcs,
             tool_call_id := tcid } :: rest) =
          OpenAIToGemini.nonSystemMessages rest := rfl
      rw [hns, OpenAIToGemini.convertMessagesGo]
      exact ih _ si2 cts
    | user =>
      have hns : OpenAIToGemini.nonSystemMessages
          ({ role := .user, content := content, name := mname, tool_calls := tcs,
             tool_call_id := tcid } :: rest) =
          { role := .user, content := content, name := mname, tool_calls := tcs,
            tool_call_id := tcid } :: OpenAIToGemini.nonSystemMessages rest := rfl
      rw [hns, OpenAIToGemini.convertMessagesGo, OpenAIToGemini.convertMessagesGo]
      exact ih _ si2 _
    | assistant =>
      have hns : OpenAIToGemini.nonSystemMessages
          ({ role := .assistant, content := content, name := mname, tool_calls := tcs,
             tool_call_id := tcid } :: rest) =
          { role := .assistant, content := content, name := mname, tool_calls := tcs,
            tool_call_id := tcid } :: OpenAIToGemini.nonSystemMessages rest := rfl
      rw [hns, OpenAIToGemini.convertMessagesGo, OpenAIToGemini.convertMessagesGo]
      cases hcp : OpenAIToGemini.convertToolCallParts parse (tcs.getD []) with
      | error e => rfl
      | ok callParts => exact ih _ si2 _
    | tool =>
      have hns : OpenAIToGemini.nonSystemMessages
          ({ role := .tool, content := content, name := mname, tool_calls := tcs,
             tool_call_id := tcid } :: rest) =
          { role := .tool, content := content, name := mname, tool_calls := tcs,
            tool_call_id := tcid } :: OpenAIToGemini.nonSystemMessages rest := rfl
      rw [hns, OpenAIToGemini.convertMessagesGo, OpenAIToGemini.convertMessagesGo]
      exact ih _ si2 _

theorem systemTexts_nonSystem (msgs : List OpenAIToGemini.OpenAIMessage) :
    OpenAIToGemini.systemTexts (OpenAIToGemini.nonSystemMessages msgs) = [] := by
  induction msgs with
  | nil => rfl
  | cons msg rest ih =>
    rcases msg with ⟨role, content, mname, tcs, tcid⟩
    cases role <;>
      simpa [OpenAIToGemini.systemTexts, OpenAIToGemini.nonSystemMessages,
        List.filter_cons] using ih

theorem systemTexts_ne_nil (msgs : List OpenAIToGemini.OpenAIMessage)
    (hs : ∃ m ∈ msgs, m.role = OpenAIToGemini.OpenAIRole.system) :
    OpenAIToGemini.systemTexts msgs ≠ [] := by
  obtain ⟨m, hm, hrole⟩ := hs
  intro hnil
  rw [OpenAIToGemini.systemTexts, List.map_eq_nil_iff, List.filter_eq_nil_iff] at hnil
  exact hnil m hm (by rw [hrole])

/-- Claim C3 (corrected): with at least one system message, no content entry
derives from a system message (dropping the system messages leaves `contents`
unchanged), and `systemInstruction` is the newline-join of the system texts —
except that, the accumulator being rebuilt through a JavaScript truthiness
test, every empty system text BEFORE the first non-empty one is dropped
instead of contributing a newline separator. -/
theorem c3_system_instruction (parse : String → Option Json)
    (msgs : List OpenAIToGemini.OpenAIMessage) (si : Option String)
    (cts : List OpenAIToGemini.GeminiContent)
    (h : OpenAIToGemini.convertMessages parse msgs = .ok (si, cts))
    (hs : ∃ m ∈ msgs, m.role = OpenAIToGemini.OpenAIRole.system) :
    si = some (joinNl ((OpenAIToGemini.systemTexts msgs).dropWhile (fun t => t == "")))
    ∧ OpenAIToGemini.convertMessages parse (OpenAIToGemini.nonSystemMessages msgs) =
        .ok (none, cts) := by
  have hgo : OpenAIToGemini.convertMessagesGo parse msgs none [] = .ok (si, cts) := h
  have h1 := convertMessagesGo_si parse msgs none [] (si, cts) hgo
  have h2 := convertMessagesGo_contents parse msgs none none []
  rw [hgo] at h2
  constructor
  · rw [show si = (si, cts).1 from rfl, h1,
      accumulateSi_none (OpenAIToGemini.systemTexts msgs) (systemTexts_ne_nil msgs hs)]
  · cases hr : OpenAIToGemini.convertMessagesGo parse
        (OpenAIToGemini.nonSystemMessages msgs) none [] with
    | error e =>
      rw [hr] at h2
      exact absurd h2 (by simp [Except.map])
    | ok r =>
      obtain ⟨si', cts'⟩ := r
      rw [hr] at h2
      have hc : cts = cts' := by simpa [Except.map] using h2
      have hsi' := convertMessagesGo_si parse (OpenAIToGemini.nonSystemMessages msgs)
        none [] (si', cts') hr
      rw [systemTexts_nonSystem msgs] at hsi'
      have hsi'' : si' = none := hsi'
      show OpenAIToGemini.convertMessagesGo parse
        (OpenAIToGemini.nonSystemMessages msgs) none [] = .ok (none, cts)
      rw [hr, hsi'', ← hc]

/-- Witness for C3 (amended): at the concrete two system messages
`["", "a"]`, the instruction is the join after dropping the leading empty
text, and dropping the system messages leaves the (empty) contents. -/
theorem c3_system_instruction_witness :
    some "a" = some (joinNl ((OpenAIToGemini.systemTexts
        [Examples.sysEmpty, Examples.sysA]).dropWhile (fun t => t == "")))
    ∧ OpenAIToGemini.convertMessages Examples.rejectParse
        (OpenAIToGemini.nonSystemMessages [Examples.sysEmpty, Examples.sysA]) =
      .ok (none, []) :=
  c3_system_instruction Examples.rejectParse [Examples.sysEmpty, Examples.sysA]
    (some "a") [] rfl ⟨Examples.sysEmpty, List.mem_cons_self _ _, rfl⟩

/-- Counterexample for C3 as stated: on `[system "", system "a"]` the code
returns the instruction `"a"`, whereas the newline-join of the extracted
system texts in original order is `"\na"`. -/
theorem c3_counterexample :
    OpenAIToGemini.convertMessages Examples.rejectParse
        [Examples.sysEmpty, Examples.sysA] = .ok (some "a", [])
    ∧ OpenAIToGemini.systemTexts [Examples.sysEmpty, Examples.sysA] = ["", "a"]
    ∧ joinNl ["", "a"] = "\na"
    ∧ ("a" : String) ≠ "\na" :=
  ⟨rfl, rfl, rfl, by decide⟩

/-! ### C4: the Response Adapter on function-call responses -/

theorem enum_pairwise_fst_ne {α : Type} (l : List α) :
    l.enum.Pairwise (fun a b => a.1 ≠ b.1) := by
  have h := List.nodup_enum_map_fst l
  exact List.pairwise_map.mp h

/-- Claim C4 (confirmed): `convertResponse` reads only the candidate at index
0 (replacing the later candidates changes nothing); when the first
candidate's parts contain n ≥ 1 function-call parts, the single choice
carries exactly n tool calls — the `i`-th built from the `i`-th fresh uuid
with JSON-stringified arguments — `finish_reason` is `tool_calls` regardless
of the backend's finish reason, and `content` is null unless the concatenated
text parts are non-empty, in which case it is their concatenation; distinct
generated call ids make the tool-call ids pairwise distinct. -/
theorem c4_convert_response (uuid : Nat → String) (now : Nat) (jstringify : Json → String)
    (resp : GeminiResponse) (model : String) :
    (∀ (c : GeminiCandidate) (rest rest2 : List GeminiCandidate)
       (usage : Option UsageMetadata),
      GeminiToOpenAI.convertResponse uuid now jstringify
          { candidates := some (c :: rest), usageMetadata := usage } model =
        GeminiToOpenAI.convertResponse uuid now jstringify
          { candidates := some (c :: rest2), usageMetadata := usage } model)
    ∧ (1 ≤ (GeminiToOpenAI.extractFunctionCalls (firstCandidateParts resp)).length →
        (GeminiToOpenAI.convertResponse uuid now jstringify resp model).choices =
          [{ index := 0
             message :=
               { role := "assistant"
                 content :=
                   if String.join ((firstCandidateParts resp).filterMap (fun p => p.text)) = ""
                   then none
                   else some (String.join ((firstCandidateParts resp).filterMap (fun p => p.text)))
                 tool_calls := some
                   ((GeminiToOpenAI.extractFunctionCalls (firstCandidateParts resp)).enum.map
                     (fun p =>
                       { id := GeminiToOpenAI.mkCallId (uuid p.1)
                         type := "function"
                         function :=
                           { name := p.2.name
                             arguments := jstringify (p.2.args.getD (Json.obj [])) } })) }
             finish_reason := some "tool_calls" }])
    ∧ ((∀ i j : Nat, i ≠ j →
          GeminiToOpenAI.mkCallId (uuid i) ≠ GeminiToOpenAI.mkCallId (uuid j)) →
        ∀ ch ∈ (GeminiToOpenAI.convertResponse uuid now jstringify resp model).choices,
          ∀ tcs, ch.message.tool_calls = some tcs →
            tcs.Pairwise (fun a b => a.id ≠ b.id)) := by
  refine ⟨fun c rest rest2 usage => rfl, ?_, ?_⟩
  · intro hfc
    have hpos : 0 < (GeminiToOpenAI.extractFunctionCalls (firstCandidateParts resp)).length := hfc
    by_cases hjoin :
        String.join ((firstCandidateParts resp).filterMap (fun p => p.text)) = ""
    · rcases Nat.eq_zero_or_pos
          ((firstCandidateParts resp).filterMap (fun p => p.text)).length with hlen | hlen
      · simp [GeminiToOpenAI.convertResponse, hpos, List.length_eq_zero.mp hlen, hjoin]
        rfl
      · simp [GeminiToOpenAI.convertResponse, hpos, hlen, hjoin]
    · have hlen : 0 < ((firstCandidateParts resp).filterMap (fun p => p.text)).length := by
        rcases Nat.eq_zero_or_pos
            ((firstCandidateParts resp).filterMap (fun p => p.text)).length with hlen | hlen
        · exact absurd (by rw [List.length_eq_zero.mp hlen]; rfl) hjoin
        · exact hlen
      simp [GeminiToOpenAI.convertResponse, hpos, hlen, hjoin]
  · intro hinj ch hch tcs htcs
    rcases Nat.eq_zero_or_pos
        (GeminiToOpenAI.extractFunctionCalls (firstCandidateParts resp)).length with hz | hpos
    · simp [GeminiToOpenAI.convertResponse, Nat.not_lt.mpr (Nat.le_of_eq hz.symm)] at hch
      rw [hch] at htcs
      simp [GeminiToOpenAI.convertResponse, hz] at htcs
    · simp [GeminiToOpenAI.convertResponse, hpos] at hch
      rw [hch] at htcs
      simp [GeminiToOpenAI.convertResponse, hpos] at htcs
      rw [← htcs]
      refine List.pairwise_map.mpr ?_
      exact (enum_pairwise_fst_ne _).imp (fun h => hinj _ _ h)

/-- Witness for C4: the mixed function-call/text response yields one
tool call with a fresh id, the concatenated text as content, and
finish_reason tool_calls although the backend reported STOP. -/
theorem c4_convert_response_witness :
    (GeminiToOpenAI.convertResponse (fun k => toString k) 5 (fun _ => "argstr")
        Examples.mixedChunk "m").choices =
      [{ index := 0
         message :=
           { role := "assistant"
             content := some "hi"
             tool_calls := some
               [{ id := "call_0"
                  type := "function"
                  function := { name := "f", arguments := "argstr" } }] }
         finish_reason := some "tool_calls" }] := by
  have h := (c4_convert_response (fun k => toString k) 5 (fun _ => "argstr")
    Examples.mixedChunk "m").2.1 (by decide)
  rw [h]
  rfl

/-! ### C1 and C9: the streaming transformer -/

theorem sseStep_fc_eq (uuid : Nat → String) (jstringify : Json → String)
    (cid : String) (created : Nat) (model : String) (st : SseTransformer.SseState)
    (chunk : GeminiResponse)
    (h : SseTransformer.extractFunctionCalls (firstCandidateParts chunk) ≠ []) :
    SseTransformer.sseStep uuid jstringify cid created model st chunk =
      ([{ id := cid
          object := "chat.completion.chunk"
          created := created
          model := model
          choices :=
            [{ index := 0
               delta :=
                 { role := if st.sentRole then none else some "assistant"
                   tool_calls := some
                     ((SseTransformer.extractFunctionCalls (firstCandidateParts chunk)).enum.map
                       (fun p =>
                         { index := st.toolCallIndex + p.1
                           id := some (GeminiToOpenAI.mkCallId (uuid (st.toolCallIndex + p.1)))
                           type := some "function"
                           function :=
                             { name := some p.2.name
                               arguments := some (jstringify (p.2.args.getD (Json.obj []))) } })) }
               finish_reason := none }] }],
       { sentRole := true
         toolCallIndex := st.toolCallIndex +
           (SseTransformer.extractFunctionCalls (firstCandidateParts chunk)).length }) := by
  have hpos : 0 < (SseTransformer.extractFunctionCalls (firstCandidateParts chunk)).length :=
    List.length_pos.mpr h
  simp only [SseTransformer.sseStep]
  rw [if_pos hpos]

theorem sseStep_nofc_eq (uuid : Nat → String) (jstringify : Json → String)
    (cid : String) (created : Nat) (model : String) (st : SseTransformer.SseState)
    (chunk : GeminiResponse)
    (h : SseTransformer.extractFunctionCalls (firstCandidateParts chunk) = []) :
    SseTransformer.sseStep uuid jstringify cid created model st chunk =
      ((if String.join ((firstCandidateParts chunk).filterMap (fun p => p.text)) ≠ "" then
          [{ id := cid
             object := "chat.completion.chunk"
             created := created
             model := model
             choices :=
               [{ index := 0
                  delta :=
                    { role := if st.sentRole then none else some "assistant"
                      content := some (String.join
                        ((firstCandidateParts chunk).filterMap (fun p => p.text))) }
                  finish_reason := none }] }]
        else []) ++
       (match SseTransformer.mapFinishReason (firstCandidateFinish chunk) with
        | some finishReason =>
          [{ id := cid
             object := "chat.completion.chunk"
             created := created
             model := model
             choices :=
               [{ index := 0
                  delta := {}
                  finish_reason :=
                    some (if st.toolCallIndex > 0 then "tool_calls" else finishReason) }] }]
        | none => []),
       { sentRole :=
           if String.join ((firstCandidateParts chunk).filterMap (fun p => p.text)) ≠ ""
           then true else st.sentRole
         toolCallIndex := st.toolCallIndex }) := by
  simp only [SseTransformer.sseStep, h, List.length_nil, lt_self_iff_false, if_false]

theorem sseStep_ids (uuid : Nat → String) (jstringify : Json → String)
    (cid : String) (created : Nat) (model : String) (st : SseTransformer.SseState)
    (chunk : GeminiResponse) :
    ∀ c ∈ (SseTransformer.sseStep uuid jstringify cid created model st chunk).1,
      c.id = cid ∧ c.object = "chat.completion.chunk" ∧ c.created = created
        ∧ c.model = model := by
  intro c hc
  by_cases hfc : SseTransformer.extractFunctionCalls (firstCandidateParts chunk) = []
  · rw [sseStep_nofc_eq uuid jstringify cid created model st chunk hfc] at hc
    rcases List.mem_append.mp hc with h | h
    · by_cases ht :
          String.join ((firstCandidateParts chunk).filterMap (fun p => p.text)) ≠ ""
      · rw [if_pos ht] at h
        simp only [List.mem_singleton] at h
        subst h
        exact ⟨rfl, rfl, rfl, rfl⟩
      · rw [if_neg ht] at h
        simp at h
    · cases hfr : SseTransformer.mapFinishReason (firstCandidateFinish chunk) with
      | some fr =>
        rw [hfr] at h
        simp only [List.mem_singleton] at h
        subst h
        exact ⟨rfl, rfl, rfl, rfl⟩
      | none =>
        rw [hfr] at h
        simp at h
  · rw [sseStep_fc_eq uuid jstringify cid created model st chunk hfc] at hc
    simp only [List.mem_singleton] at hc
    subst hc
    exact ⟨rfl, rfl, rfl, rfl⟩

theorem sseStep_sent (uuid : Nat → String) (jstringify : Json → String)
    (cid : String) (created : Nat) (model : String) (st : SseTransformer.SseState)
    (chunk : GeminiResponse) (hsr : st.sentRole = true) :
    (∀ c ∈ (SseTransformer.sseStep uuid jstringify cid created model st chunk).1,
      SseTransformer.chunkHasRole c = false)
    ∧ (SseTransformer.sseStep uuid jstringify cid created model st chunk).2.sentRole
        = true := by
  by_cases hfc : SseTransformer.extractFunctionCalls (firstCandidateParts chunk) = []
  · rw [sseStep_nofc_eq uuid jstringify cid created model st chunk hfc]
    constructor
    · intro c hc
      rcases List.mem_append.mp hc with h | h
      · by_cases ht :
            String.join ((firstCandidateParts chunk).filterMap (fun p => p.text)) ≠ ""
        · rw [if_pos ht] at h
          simp only [List.mem_singleton] at h
          subst h
          simp [SseTransformer.chunkHasRole, hsr]
        · rw [if_neg ht] at h
          simp at h
      · cases hfr : SseTransformer.mapFinishReason (firstCandidateFinish chunk) with
        | some fr =>
          rw [hfr] at h
          simp only [List.mem_singleton] at h
          subst h
          simp [SseTransformer.chunkHasRole]
        | none =>
          rw [hfr] at h
          simp at h
    · by_cases ht :
          String.join ((firstCandidateParts chunk).filterMap (fun p => p.text)) ≠ ""
      · simp [ht]
      · simp [ht, hsr]
  · rw [sseStep_fc_eq uuid jstringify cid created model st chunk hfc]
    refine ⟨?_, rfl⟩
    intro c hc
    simp only [List.mem_singleton] at hc
    subst hc
    simp [SseTransformer.chunkHasRole, hsr]

theorem sseStep_shape_fresh (uuid : Nat → String) (jstringify : Json → String)
    (cid : String) (created : Nat) (model : String) (st : SseTransformer.SseState)
    (chunk : GeminiResponse) (hsr : st.sentRole = false) :
    ((SseTransformer.sseStep uuid jstringify cid created model st chunk).1 = []
      ∧ (SseTransformer.sseStep uuid jstringify cid created model st chunk).2.sentRole
          = false)
    ∨ (∃ c0, (SseTransformer.sseStep uuid jstringify cid created model st chunk).1 = [c0]
        ∧ SseTransformer.chunkHasRole c0 = false
        ∧ SseTransformer.chunkContentBearing c0 = false
        ∧ (SseTransformer.sseStep uuid jstringify cid created model st chunk).2.sentRole
            = false)
    ∨ (∃ c0 tl,
        (SseTransformer.sseStep uuid jstringify cid created model st chunk).1 = c0 :: tl
        ∧ SseTransformer.chunkHasRole c0 = true
        ∧ SseTransformer.chunkContentBearing c0 = true
        ∧ (∀ c2 ∈ tl, SseTransformer.chunkHasRole c2 = false
            ∧ SseTransformer.chunkContentBearing c2 = false)
        ∧ (SseTransformer.sseStep uuid jstringify cid created model st chunk).2.sentRole
            = true) := by
  by_cases hfc : SseTransformer.extractFunctionCalls (firstCandidateParts chunk) = []
  · rw [sseStep_nofc_eq uuid jstringify cid created model st chunk hfc]
    by_cases ht :
        String.join ((firstCandidateParts chunk).filterMap (fun p => p.text)) ≠ ""
    · -- text chunk (role, content-bearing) then possibly a finish chunk
      refine Or.inr (Or.inr ⟨
        { id := cid
          object := "chat.completion.chunk"
          created := created
          model := model
          choices :=
            [{ index := 0
               delta :=
                 { role := if st.sentRole then none else some "assistant"
                   content := some (String.join
                     ((firstCandidateParts chunk).filterMap (fun p => p.text))) }
               finish_reason := none }] },
        (match SseTransformer.mapFinishReason (firstCandidateFinish chunk) with
         | some finishReason =>
           [{ id := cid
              object := "chat.completion.chunk"
              created := created
              model := model
              choices :=
                [{ index := 0
                   delta := {}
                   finish_reason :=
                     some (if st.toolCallIndex > 0 then "tool_calls" else finishReason) }] }]
         | none => []),
        ?_, ?_, ?_, ?_, ?_⟩)
      · rw [if_pos ht]
        rfl
      · simp [SseTransformer.chunkHasRole, hsr]
      · simp [SseTransformer.chunkContentBearing]
      · intro c2 hc2
        cases hfr : SseTransformer.mapFinishReason (firstCandidateFinish chunk) with
        | some fr =>
          rw [hfr] at hc2
          simp only [List.mem_singleton] at hc2
          subst hc2
          constructor
          · simp [SseTransformer.chunkHasRole]
          · simp [SseTransformer.chunkContentBearing]
        | none =>
          rw [hfr] at hc2
          simp at hc2
      · simp [ht]
    · -- no text: possibly just a finish chunk (no role, not content-bearing)
      cases hfr : SseTransformer.mapFinishReason (firstCandidateFinish chunk) with
      | some fr =>
        refine Or.inr (Or.inl ⟨
          { id := cid
            object := "chat.completion.chunk"
            created := created
            model := model
            choices :=
              [{ index := 0
                 delta := {}
                 finish_reason :=
                   some (if st.toolCallIndex > 0 then "tool_calls" else fr) }] },
          ?_, ?_, ?_, ?_⟩)
        · rw [if_neg ht]
          rfl
        · simp [SseTransformer.chunkHasRole]
        · simp [SseTransformer.chunkContentBearing]
        · simp [ht, hsr]
      | none =>
        refine Or.inl ⟨?_, ?_⟩
        · rw [if_neg ht]
          rfl
        · simp [ht, hsr]
  · rw [sseStep_fc_eq uuid jstringify cid created model st chunk hfc]
    refine Or.inr (Or.inr ⟨_, [], rfl, ?_, ?_, by simp, rfl⟩)
    · simp [SseTransformer.chunkHasRole, hsr]
    · simp [SseTransformer.chunkContentBearing]

theorem runSse_ids (uuid : Nat → String) (jstringify : Json → String)
    (cid : String) (created : Nat) (model : String)
    (chunks : List GeminiResponse) :
    ∀ st, ∀ c ∈ SseTransformer.runSse uuid jstringify cid created model chunks st,
      c.id = cid ∧ c.object = "chat.completion.chunk" ∧ c.created = created
        ∧ c.model = model := by
  induction chunks with
  | nil =>
    intro st c hc
    simp [SseTransformer.runSse] at hc
  | cons r rest ih =>
    intro st c hc
    simp only [SseTransformer.runSse] at hc
    rcases List.mem_append.mp hc with h | h
    · exact sseStep_ids uuid jstringify cid created model st r c h
    · exact ih _ c h

theorem runSse_noRole (uuid : Nat → String) (jstringify : Json → String)
    (cid : String) (created : Nat) (model : String)
    (chunks : List GeminiResponse) :
    ∀ st : SseTransformer.SseState, st.sentRole = true →
      SseTransformer.noMoreRoles
        (SseTransformer.runSse uuid jstringify cid created model chunks st) = true := by
  induction chunks with
  | nil => intro st _; rfl
  | cons r rest ih =>
    intro st hsr
    simp only [SseTransformer.runSse]
    have hstep := sseStep_sent uuid jstringify cid created model st r hsr
    rw [SseTransformer.noMoreRoles, List.all_append]
    refine Bool.and_eq_true_iff.mpr ⟨?_, ih _ hstep.2⟩
    rw [List.all_eq_true]
    intro c hc
    simp [hstep.1 c hc]

theorem roleDiscipline_prepend
    (a b : List GeminiToOpenAI.OpenAIChatCompletionChunk)
    (ha : ∀ c ∈ a, SseTransformer.chunkHasRole c = false
        ∧ SseTransformer.chunkContentBearing c = false) :
    SseTransformer.roleDiscipline false (a ++ b) =
      SseTransformer.roleDiscipline false b := by
  induction a with
  | nil => rfl
  | cons c a' ih =>
    have hc := ha c (List.mem_cons_self _ _)
    rw [List.cons_append, SseTransformer.roleDiscipline, if_neg (by simp [hc.1]),
      hc.2]
    exact ih (fun c2 h2 => ha c2 (List.mem_cons_of_mem _ h2))

theorem runSse_discipline (uuid : Nat → String) (jstringify : Json → String)
    (cid : String) (created : Nat) (model : String)
    (chunks : List GeminiResponse) :
    ∀ st : SseTransformer.SseState, st.sentRole = false →
      SseTransformer.roleDiscipline false
        (SseTransformer.runSse uuid jstringify cid created model chunks st) = true := by
  induction chunks with
  | nil => intro st _; rfl
  | cons r rest ih =>
    intro st hsr
    simp only [SseTransformer.runSse]
    rcases sseStep_shape_fresh uuid jstringify cid created model st r hsr with
      ⟨h1, h2⟩ | ⟨c0, h1, hr, hcb, h2⟩ | ⟨c0, tl, h1, hr, hcb, htl, h2⟩
    · rw [h1, List.nil_append]
      exact ih _ h2
    · rw [h1, List.singleton_append, SseTransformer.roleDiscipline,
        if_neg (by simp [hr]), hcb]
      exact ih _ h2
    · rw [h1, List.cons_append, SseTransformer.roleDiscipline, if_pos hr]
      simp only [Bool.not_false, Bool.true_and, hcb]
      rw [SseTransformer.noMoreRoles, List.all_append]
      refine Bool.and_eq_true_iff.mpr ⟨?_, ?_⟩
      · rw [List.all_eq_true]
        intro c2 h2'
        simp [(htl c2 h2').1]
      · exact runSse_noRole uuid jstringify cid created model rest _ h2

theorem noMoreRoles_countP (cs : List GeminiToOpenAI.OpenAIChatCompletionChunk)
    (h : SseTransformer.noMoreRoles cs = true) :
    cs.countP SseTransformer.chunkHasRole = 0 := by
  rw [SseTransformer.noMoreRoles, List.all_eq_true] at h
  rw [List.countP_eq_zero]
  intro c hc
  simpa using h c hc

theorem roleDiscipline_countP (cs : List GeminiToOpenAI.OpenAIChatCompletionChunk) :
    ∀ seen, SseTransformer.roleDiscipline seen cs = true →
      cs.countP SseTransformer.chunkHasRole ≤ 1 := by
  induction cs with
  | nil => intro seen _; simp
  | cons c cs' ih =>
    intro seen h
    rw [SseTransformer.roleDiscipline] at h
    by_cases hr : SseTransformer.chunkHasRole c = true
    · rw [if_pos hr] at h
      have hnm : SseTransformer.noMoreRoles cs' = true := by
        rcases Bool.and_eq_true_iff.mp h with ⟨_, h2⟩
        exact h2
      rw [List.countP_cons, noMoreRoles_countP cs' hnm, hr]
      simp
    · rw [if_neg hr] at h
      rw [List.countP_cons, Bool.eq_false_iff.mpr hr]
      simpa using ih _ h

/-- Claim C9 (confirmed): within one stream every emitted data chunk carries
the completion id and creation timestamp generated once at stream creation
(and the fixed object and model fields), and `role: "assistant"` appears on
at most one chunk — the first content-bearing chunk of the stream. -/
theorem c9_stream_invariants (uuid : Nat → String) (jstringify : Json → String)
    (cid : String) (created : Nat) (model : String)
    (chunks : List GeminiResponse) :
    (∀ c ∈ SseTransformer.runSse uuid jstringify cid created model chunks
        { sentRole := false, toolCallIndex := 0 },
      c.id = cid ∧ c.object = "chat.completion.chunk" ∧ c.created = created
        ∧ c.model = model)
    ∧ SseTransformer.roleDiscipline false
        (SseTransformer.runSse uuid jstringify cid created model chunks
          { sentRole := false, toolCallIndex := 0 }) = true
    ∧ (SseTransformer.runSse uuid jstringify cid created model chunks
        { sentRole := false, toolCallIndex := 0 }).countP
          SseTransformer.chunkHasRole ≤ 1 := by
  have hd := runSse_discipline uuid jstringify cid created model chunks
    { sentRole := false, toolCallIndex := 0 } rfl
  exact ⟨fun c hc => runSse_ids uuid jstringify cid created model chunks _ c hc,
    hd, roleDiscipline_countP _ false hd⟩

/-- Witness for C9: on the concrete two-partial stream the first emitted
chunk carries the stream's id, object, timestamp and model. -/
theorem c9_stream_invariants_witness :
    ({ id := "chatcmpl-w", object := "chat.completion.chunk", created := 7, model := "m"
       choices :=
         [{ index := 0
            delta := { role := some "assistant", content := some "Hello" }
            finish_reason := none }] } :
        GeminiToOpenAI.OpenAIChatCompletionChunk).id = "chatcmpl-w" ∧
    ({ id := "chatcmpl-w", object := "chat.completion.chunk", created := 7, model := "m"
       choices :=
         [{ index := 0
            delta := { role := some "assistant", content := some "Hello" }
            finish_reason := none }] } :
        GeminiToOpenAI.OpenAIChatCompletionChunk).object = "chat.completion.chunk" ∧
    ({ id := "chatcmpl-w", object := "chat.completion.chunk", created := 7, model := "m"
       choices :=
         [{ index := 0
            delta := { role := some "assistant", content := some "Hello" }
            finish_reason := none }] } :
        GeminiToOpenAI.OpenAIChatCompletionChunk).created = 7 ∧
    ({ id := "chatcmpl-w", object := "chat.completion.chunk", created := 7, model := "m"
       choices :=
         [{ index := 0
            delta := { role := some "assistant", content := some "Hello" }
            finish_reason := none }] } :
        GeminiToOpenAI.OpenAIChatCompletionChunk).model = "m" :=
  (c9_stream_invariants (fun _ => "u") (fun _ => "argstr") "chatcmpl-w" 7 "m"
    [Examples.helloChunk, Examples.worldStopChunk]).1 _ (List.mem_cons_self _ _)

/-- Claim C1 (corrected): per consumed partial, if it carries function-call
parts the transformer emits exactly ONE delta chunk, whose tool_calls are
indexed starting at the running counter (incrementing it by the count
emitted) — and processes nothing else of that partial: text parts and a
finish reason on the same partial are skipped, not emitted. Only for a
partial without function-call parts does it emit a text delta chunk — and
only when the concatenated text is non-empty — followed by a terminal chunk
with an empty delta when a finish reason is present, whose mapped reason is
overridden to tool_calls if any tool call was emitted earlier in the stream.
The spec's two-text-partial example streams exactly as described. -/
theorem c1_stream_step_emission (uuid : Nat → String) (jstringify : Json → String)
    (cid : String) (created : Nat) (model : String) (st : SseTransformer.SseState)
    (chunk : GeminiResponse) :
    (SseTransformer.extractFunctionCalls (firstCandidateParts chunk) ≠ [] →
      SseTransformer.sseStep uuid jstringify cid created model st chunk =
        ([{ id := cid
            object := "chat.completion.chunk"
            created := created
            model := model
            choices :=
              [{ index := 0
                 delta :=
                   { role := if st.sentRole then none else some "assistant"
                     tool_calls := some
                       ((SseTransformer.extractFunctionCalls
                           (firstCandidateParts chunk)).enum.map
                         (fun p =>
                           { index := st.toolCallIndex + p.1
                             id := some (GeminiToOpenAI.mkCallId
                               (uuid (st.toolCallIndex + p.1)))
                             type := some "function"
                             function :=
                               { name := some p.2.name
                                 arguments :=
                                   some (jstringify (p.2.args.getD (Json.obj []))) } })) }
                 finish_reason := none }] }],
         { sentRole := true
           toolCallIndex := st.toolCallIndex +
             (SseTransformer.extractFunctionCalls (firstCandidateParts chunk)).length }))
    ∧ (SseTransformer.extractFunctionCalls (firstCandidateParts chunk) = [] →
      SseTransformer.sseStep uuid jstringify cid created model st chunk =
        ((if String.join ((firstCandidateParts chunk).filterMap (fun p => p.text)) ≠ ""
          then
            [{ id := cid
               object := "chat.completion.chunk"
               created := created
               model := model
               choices :=
                 [{ index := 0
                    delta :=
                      { role := if st.sentRole then none else some "assistant"
                        content := some (String.join
                          ((firstCandidateParts chunk).filterMap (fun p => p.text))) }
                    finish_reason := none }] }]
          else []) ++
         (match SseTransformer.mapFinishReason (firstCandidateFinish chunk) with
          | some finishReason =>
            [{ id := cid
               object := "chat.completion.chunk"
               created := created
               model := model
               choices :=
                 [{ index := 0
                    delta := {}
                    finish_reason :=
                      some (if st.toolCallIndex > 0 then "tool_calls"
                            else finishReason) }] }]
          | none => []),
         { sentRole :=
             if String.join ((firstCandidateParts chunk).filterMap (fun p => p.text)) ≠ ""
             then true else st.sentRole
           toolCallIndex := st.toolCallIndex }))
    ∧ SseTransformer.sseFrames uuid jstringify cid created model
        [Examples.helloChunk, Examples.worldStopChunk] =
      [.data { id := cid
               object := "chat.completion.chunk"
               created := created
               model := model
               choices :=
                 [{ index := 0
                    delta := { role := some "assistant", content := some "Hello" }
                    finish_reason := none }] },
       .data { id := cid
               object := "chat.completion.chunk"
               created := created
               model := model
               choices :=
                 [{ index := 0
                    delta := { content := some " world" }
                    finish_reason := none }] },
       .data { id := cid
               object := "chat.completion.chunk"
               created := created
               model := model
               choices :=
                 [{ index := 0
                    delta := {}
                    finish_reason := some "stop" }] },
       .done] :=
  ⟨sseStep_fc_eq uuid jstringify cid created model st chunk,
   sseStep_nofc_eq uuid jstringify cid created model st chunk,
   rfl⟩

/-- Witness for C1 (amended): a concrete partial carrying a function call
(and a text part and a finish reason) emits exactly the one tool-call chunk. -/
theorem c1_stream_step_emission_witness :
    SseTransformer.sseStep (fun k => toString k) (fun _ => "argstr") "id0" 7 "m"
        { sentRole := false, toolCallIndex := 0 } Examples.mixedChunk =
      ([{ id := "id0"
          object := "chat.completion.chunk"
          created := 7
          model := "m"
          choices :=
            [{ index := 0
               delta :=
                 { role := some "assistant"
                   tool_calls := some
                     [{ index := 0
                        id := some "call_0"
                        type := some "function"
                        function := { name := some "f", arguments := some "argstr" } }] }
               finish_reason := none }] }],
       { sentRole := true, toolCallIndex := 1 }) := by
  have h := (c1_stream_step_emission (fun k => toString k) (fun _ => "argstr") "id0" 7 "m"
    { sentRole := false, toolCallIndex := 0 } Examples.mixedChunk).1
    (List.cons_ne_nil _ _)
  rw [h]
  rfl

/-- Counterexample for C1 as stated: the mixed partial carries a text part
(`"hi"`) and a finish reason (`STOP`), yet the transformer emits exactly one
chunk for it, with no content fragment and no terminal chunk — the claimed
independent text chunk and finish chunk are never emitted. -/
theorem c1_counterexample :
    ((SseTransformer.sseStep (fun k => toString k) (fun _ => "argstr") "id0" 7 "m"
        { sentRole := false, toolCallIndex := 0 } Examples.mixedChunk).1.map
      (fun c => c.choices.map (fun ch => (ch.delta.content, ch.finish_reason)))) =
      [[(none, none)]]
    ∧ (firstCandidateParts Examples.mixedChunk).filterMap (fun p => p.text) = ["hi"]
    ∧ firstCandidateFinish Examples.mixedChunk = some "STOP" :=
  ⟨rfl, rfl, rfl⟩

/-! ### C8: the streaming SSE line parser -/

theorem splitNl_ne_nil (t : GeminiClient.Text) : GeminiClient.splitNl t ≠ [] := by
  induction t with
  | nil => simp [GeminiClient.splitNl]
  | cons c rest ih =>
    rw [GeminiClient.splitNl]
    by_cases hc : c = '\n'
    · simp [hc]
    · rw [if_neg hc]
      cases h : GeminiClient.splitNl rest with
      | nil => simp
      | cons s ss => simp

theorem splitNl_no_newline (t : GeminiClient.Text) :
    ∀ s ∈ GeminiClient.splitNl t, '\n' ∉ s := by
  induction t with
  | nil =>
    intro s hs
    simp [GeminiClient.splitNl] at hs
    simp [hs]
  | cons c rest ih =>
    intro s hs
    rw [GeminiClient.splitNl] at hs
    by_cases hc : c = '\n'
    · rw [if_pos hc] at hs
      rcases List.mem_cons.mp hs with rfl | hmem
      · simp
      · exact ih s hmem
    · rw [if_neg hc] at hs
      cases h : GeminiClient.splitNl rest with
      | nil => exact absurd h (splitNl_ne_nil rest)
      | cons s0 ss =>
        rw [h] at hs
        rcases List.mem_cons.mp hs with rfl | hmem
        · intro hmem2
          rcases List.mem_cons.mp hmem2 with h2 | h2
          · exact hc h2.symm
          · exact ih s0 (h ▸ List.mem_cons_self _ _) h2
        · exact ih s (h ▸ List.mem_cons_of_mem _ hmem)

theorem splitNl_singleton (t : GeminiClient.Text) (h : '\n' ∉ t) :
    GeminiClient.splitNl t = [t] := by
  induction t with
  | nil => rfl
  | cons c rest ih =>
    have hc : c ≠ '\n' := fun hh => h (hh ▸ List.mem_cons_self _ _)
    have hr : '\n' ∉ rest := fun hh => h (List.mem_cons_of_mem _ hh)
    rw [GeminiClient.splitNl, if_neg hc, ih hr]

theorem glue_nil_cons (xs : List GeminiClient.Text) (ys : List GeminiClient.Text)
    (hxs : xs ≠ []) :
    GeminiClient.glue ([] :: xs) ys = [] :: GeminiClient.glue xs ys := by
  cases xs with
  | nil => exact absurd rfl hxs
  | cons x2 xs' => rfl

theorem splitNl_append (a b : GeminiClient.Text) :
    GeminiClient.splitNl (a ++ b) =
      GeminiClient.glue (GeminiClient.splitNl a) (GeminiClient.splitNl b) := by
  induction a with
  | nil =>
    cases hb : GeminiClient.splitNl b with
    | nil => exact absurd hb (splitNl_ne_nil b)
    | cons y ys => simp [GeminiClient.splitNl, GeminiClient.glue, hb]
  | cons c a' ih =>
    rw [List.cons_append, GeminiClient.splitNl]
    by_cases hc : c = '\n'
    · rw [if_pos hc, ih,
        show GeminiClient.splitNl (c :: a') = [] :: GeminiClient.splitNl a' from by
          rw [GeminiClient.splitNl, if_pos hc],
        glue_nil_cons _ _ (splitNl_ne_nil a')]
    · rw [if_neg hc]
      cases ha' : GeminiClient.splitNl a' with
      | nil => exact absurd ha' (splitNl_ne_nil a')
      | cons s0 ss0 =>
        have hca' : GeminiClient.splitNl (c :: a') = (c :: s0) :: ss0 := by
          rw [GeminiClient.splitNl, if_neg hc, ha']
        rw [ih, ha', hca']
        cases ss0 with
        | nil =>
          cases hb : GeminiClient.splitNl b with
          | nil => exact absurd hb (splitNl_ne_nil b)
          | cons y ys => rfl
        | cons x2 xs => rfl

theorem processLines_append (jparse : GeminiClient.JParse)
    (l1 l2 : List GeminiClient.Text) :
    GeminiClient.processLines jparse (l1 ++ l2) =
      (if (GeminiClient.processLines jparse l1).2 then
        GeminiClient.processLines jparse l1
      else ((GeminiClient.processLines jparse l1).1
              ++ (GeminiClient.processLines jparse l2).1,
            (GeminiClient.processLines jparse l2).2)) := by
  induction l1 with
  | nil => simp [GeminiClient.processLines]
  | cons line rest ih =>
    rw [List.cons_append, GeminiClient.processLines, GeminiClient.processLines]
    by_cases hp : GeminiClient.dataTag.isPrefixOf (GeminiClient.trimText line) = true
    · rw [if_pos hp, if_pos hp]
      by_cases hd : (GeminiClient.trimText line).drop 6 = GeminiClient.doneMarker
      · rw [if_pos hd, if_pos hd]
        rfl
      · rw [if_neg hd, if_neg hd]
        cases hj : jparse ((GeminiClient.trimText line).drop 6) with
        | some cc =>
          simp only [ih]
          by_cases h2 : (GeminiClient.processLines jparse rest).2 = true
          · simp [h2]
          · simp [h2]
        | none => exact ih
    · rw [if_neg hp, if_neg hp]
      exact ih

theorem streamGo_nil_eq (jparse : GeminiClient.JParse) (buffer : GeminiClient.Text) :
    GeminiClient.streamGo jparse [] buffer =
      (GeminiClient.processLines jparse [buffer]).1 := by
  rw [GeminiClient.streamGo, GeminiClient.processLines]
  by_cases hp : GeminiClient.dataTag.isPrefixOf (GeminiClient.trimText buffer) = true
  · rw [if_pos hp, if_pos hp]
    by_cases hd : (GeminiClient.trimText buffer).drop 6 = GeminiClient.doneMarker
    · rw [if_pos hd, if_pos hd]
    · rw [if_neg hd, if_neg hd]
      cases hj : jparse ((GeminiClient.trimText buffer).drop 6) with
      | some cc => rfl
      | none => rfl
  · rw [if_neg hp, if_neg hp]
    rfl

theorem getLastD_of_ne_nil {α : Type} (l : List α) (h : l ≠ []) (d : α) :
    l.getLastD d = l.getLast h := by
  rw [List.getLastD_eq_getLast?, List.getLast?_eq_getLast l h]
  rfl

theorem glue_eq_dropLast (L : List GeminiClient.Text) (hL : L ≠ [])
    (S : List GeminiClient.Text) :
    GeminiClient.glue L S = L.dropLast ++ GeminiClient.glue [L.getLast hL] S := by
  induction L with
  | nil => exact absurd rfl hL
  | cons x xs ih =>
    cases xs with
    | nil => rfl
    | cons x2 xs' =>
      rw [show GeminiClient.glue (x :: x2 :: xs') S =
            x :: GeminiClient.glue (x2 :: xs') S from rfl,
        ih (List.cons_ne_nil _ _), List.dropLast_cons₂, List.cons_append,
        List.getLast_cons (List.cons_ne_nil _ _)]

theorem streamGo_lines (jparse : GeminiClient.JParse)
    (chunks : List GeminiClient.Text) :
    ∀ buffer : GeminiClient.Text, '\n' ∉ buffer →
      GeminiClient.streamGo jparse chunks buffer =
        (GeminiClient.processLines jparse
          (GeminiClient.splitNl (buffer ++ chunks.flatten))).1 := by
  induction chunks with
  | nil =>
    intro buffer hb
    rw [List.flatten_nil, List.append_nil, splitNl_singleton buffer hb, streamGo_nil_eq]
  | cons c rest ih =>
    intro buffer hb
    have hLne := splitNl_ne_nil (buffer ++ c)
    have hlast_mem := List.getLast_mem hLne
    have hlast_nn : '\n' ∉ (GeminiClient.splitNl (buffer ++ c)).getLast hLne :=
      splitNl_no_newline (buffer ++ c) _ hlast_mem
    have hlastD : (GeminiClient.splitNl (buffer ++ c)).getLastD [] =
        (GeminiClient.splitNl (buffer ++ c)).getLast hLne :=
      getLastD_of_ne_nil _ hLne []
    -- right-hand side: lines of the whole remaining text
    have hsplit : GeminiClient.splitNl (buffer ++ (c :: rest).flatten) =
        (GeminiClient.splitNl (buffer ++ c)).dropLast ++
          GeminiClient.splitNl ((GeminiClient.splitNl (buffer ++ c)).getLast hLne
            ++ rest.flatten) := by
      rw [List.flatten_cons, ← List.append_assoc, splitNl_append (buffer ++ c) rest.flatten,
        splitNl_append ((GeminiClient.splitNl (buffer ++ c)).getLast hLne) rest.flatten,
        splitNl_singleton _ hlast_nn,
        glue_eq_dropLast _ hLne (GeminiClient.splitNl rest.flatten)]
    rw [hsplit, processLines_append]
    -- left-hand side: one read step
    simp only [GeminiClient.streamGo]
    rw [hlastD, ih _ hlast_nn]
    by_cases h2 : (GeminiClient.processLines jparse
        (GeminiClient.splitNl (buffer ++ c)).dropLast).2 = true
    · simp [h2]
    · simp [h2]

/-- Claim C8 (confirmed): the stream reader buffers received text and splits
it on newline, retaining the trailing partial line for the next read — so the
yielded sequence over any chunking equals processing the complete lines of
the whole received text. Each complete `data: ` line is JSON-parsed and
unwrapped from the `{response}` envelope before being yielded; a line that
fails to parse yields nothing; a literal `[DONE]` data line ends the yielded
sequence immediately — everything after it, including any final partial line,
is discarded. -/
theorem c8_stream_parsing (jparse : GeminiClient.JParse) :
    (∀ chunks : List GeminiClient.Text,
      GeminiClient.streamYields jparse chunks =
        (GeminiClient.processLines jparse
          (GeminiClient.splitNl chunks.flatten)).1)
    ∧ (∀ (line : GeminiClient.Text) (cc : CloudCodeResponse),
        GeminiClient.dataTag.isPrefixOf (GeminiClient.trimText line) = true →
        (GeminiClient.trimText line).drop 6 ≠ GeminiClient.doneMarker →
        jparse ((GeminiClient.trimText line).drop 6) = some cc →
        GeminiClient.processLines jparse [line] = ([cc.response], false))
    ∧ (∀ line : GeminiClient.Text,
        GeminiClient.dataTag.isPrefixOf (GeminiClient.trimText line) = true →
        (GeminiClient.trimText line).drop 6 ≠ GeminiClient.doneMarker →
        jparse ((GeminiClient.trimText line).drop 6) = none →
        GeminiClient.processLines jparse [line] = ([], false))
    ∧ (∀ pre post : List GeminiClient.Text,
        (GeminiClient.processLines jparse
          (pre ++ (GeminiClient.dataTag ++ GeminiClient.doneMarker) :: post)).1 =
          (GeminiClient.processLines jparse
            (pre ++ [GeminiClient.dataTag ++ GeminiClient.doneMarker])).1) := by
  refine ⟨?_, ?_, ?_, ?_⟩
  · intro chunks
    rw [GeminiClient.streamYields, streamGo_lines jparse chunks [] (by simp),
      List.nil_append]
  · intro line cc h1 h2 h3
    rw [GeminiClient.processLines, if_pos h1, if_neg h2, h3]
    rfl
  · intro line h1 h2 h3
    rw [GeminiClient.processLines, if_pos h1, if_neg h2, h3]
    rfl
  · intro pre post
    induction pre with
    | nil => rfl
    | cons p pre' ih =>
      rw [List.cons_append, List.cons_append, GeminiClient.processLines,
        GeminiClient.processLines]
      by_cases hp : GeminiClient.dataTag.isPrefixOf (GeminiClient.trimText p) = true
      · rw [if_pos hp, if_pos hp]
        by_cases hd : (GeminiClient.trimText p).drop 6 = GeminiClient.doneMarker
        · rw [if_pos hd, if_pos hd]
        · rw [if_neg hd, if_neg hd]
          cases hj : jparse ((GeminiClient.trimText p).drop 6) with
          | some cc => exact congrArg (fun l => cc.response :: l) ih
          | none => exact ih
      · rw [if_neg hp, if_neg hp]
        exact ih

/-- Witness for C8: a concrete well-formed `data:` line yields its unwrapped
response; a concrete unparseable `data:` line yields nothing. -/
theorem c8_stream_parsing_witness :
    GeminiClient.processLines
        (fun t => if t = ['1'] then some { response := {} } else none)
        [GeminiClient.dataTag ++ ['1']] =
      ([({} : GeminiResponse)], false)
    ∧ GeminiClient.processLines
        (fun t => if t = ['1'] then some { response := {} } else none)
        [GeminiClient.dataTag ++ ['x']] =
      ([], false) := by
  constructor
  · exact (c8_stream_parsing
      (fun t => if t = ['1'] then some { response := {} } else none)).2.1
      (GeminiClient.dataTag ++ ['1']) { response := {} }
      (by decide) (by decide) rfl
  · exact (c8_stream_parsing
      (fun t => if t = ['1'] then some { response := {} } else none)).2.2.1
      (GeminiClient.dataTag ++ ['x'])
      (by decide) (by decide) rfl

end Theorems

end GeminiDaemon
